import Mathlib

/-!
Verification development for the parametric-modeling core of 3DesignLab:
a shallow embedding of the feature evaluator (`src/engine/FeatureEvaluator.ts`),
the document store (`documentStore`), the sketch geometry engine
(`src/engine/SketchEngine.ts`) and the closed-loop profile detector
(`src/engine/ProfileDetector.ts`), together with theorems about the
embedded operations.

Conventions of the embedding:
* JavaScript numbers are embedded as exact numerals: the evaluator and the
  document store, which use only field arithmetic, are embedded over `ℚ`;
  the sketch engine and profile detector, which use `Math.sqrt`, `Math.cos`,
  `Math.sin` and `Math.PI`, are embedded over `ℝ`.
* The external Solid Kernel (`ManifoldEngine`) is modelled as a free term
  algebra: each kernel operation is a constructor, and every call increments
  an explicit kernel-call counter threaded through evaluation.
* `crypto.randomUUID` / `Math.random`-based id generation is modelled by a
  deterministic counter threaded through the state: fresh calls yield fresh
  ids, which is the only property the code relies on.
* JavaScript exceptions are modelled with `Except String`; operations that
  can never throw still return `Except` so that "throws" versus "returns
  normally" is expressible.
* A JS `Map` is modelled as an insertion-ordered association list.
-/

namespace DesignLab

/-! ## Part 1: Feature evaluator (`FeatureEvaluator.ts`) over `ℚ` -/

/-- A solid handle of the external kernel, as a free term algebra. -/
inductive Manifold where
  | box (width height depth : ℚ)
  | cylinder (height radius radiusTop : ℚ)
  | sphere (radius : ℚ)
  | translate (m : Manifold) (x y z : ℚ)
  | rotate (m : Manifold) (x y z : ℚ)
  | extrude (points : List (ℚ × ℚ)) (height : ℚ)
  | union (a b : Manifold)
  | difference (a b : Manifold)
  | intersect (a b : Manifold)
  deriving DecidableEq

/-- Instrumentation threaded through evaluation: the id-generation counter
(standing in for the RNG behind `generateBodyId`) and the number of Solid
Kernel calls made so far. -/
structure Kt where
  nextId : Nat
  kernelCalls : Nat
  deriving DecidableEq

/-- Record one Solid Kernel call. -/
def kcall (k : Kt) : Kt := { k with kernelCalls := k.kernelCalls + 1 }

/-- `generateBodyId` from `idGenerator.ts`: a fresh opaque id per call. -/
def generateBodyId (k : Kt) : String × Kt :=
  ("body-" ++ toString k.nextId, { k with nextId := k.nextId + 1 })

namespace ManifoldEngine

def createBox (w h d : ℚ) (k : Kt) : Manifold × Kt := (.box w h d, kcall k)

def createCylinder (h r rt : ℚ) (k : Kt) : Manifold × Kt := (.cylinder h r rt, kcall k)

def createSphere (r : ℚ) (k : Kt) : Manifold × Kt := (.sphere r, kcall k)

def translate (m : Manifold) (x y z : ℚ) (k : Kt) : Manifold × Kt := (.translate m x y z, kcall k)

def rotate (m : Manifold) (x y z : ℚ) (k : Kt) : Manifold × Kt := (.rotate m x y z, kcall k)

def extrude (points : List (ℚ × ℚ)) (h : ℚ) (k : Kt) : Manifold × Kt := (.extrude points h, kcall k)

def union (a b : Manifold) (k : Kt) : Manifold × Kt := (.union a b, kcall k)

def difference (a b : Manifold) (k : Kt) : Manifold × Kt := (.difference a b, kcall k)

def intersect (a b : Manifold) (k : Kt) : Manifold × Kt := (.intersect a b, kcall k)

end ManifoldEngine

/-- `CachedBody` from `types/features.ts`. -/
structure CachedBody where
  manifold : Manifold
  bodyId : String
  originFeatureId : String
  deriving DecidableEq

/-- `CachedResult` from `types/features.ts` (`Date.now()` stamp kept as data). -/
structure CachedResult where
  bodies : List CachedBody
  timestamp : Int
  deriving DecidableEq

/-- `Map.set`: overwrite in place if the key exists, else append. -/
def mapSet {α : Type} (m : List (String × α)) (key : String) (v : α) : List (String × α) :=
  if m.any (fun p => p.1 = key) then m.map (fun p => if p.1 = key then (key, v) else p)
  else m ++ [(key, v)]

/-- `Map.get`. -/
def mapGet {α : Type} (m : List (String × α)) (key : String) : Option α :=
  (m.find? (fun p => p.1 = key)).map (fun p => p.2)

/-- `Map.delete`. -/
def mapDelete {α : Type} (m : List (String × α)) (key : String) : List (String × α) :=
  m.filter (fun p => p.1 ≠ key)

/-- The parameters the evaluator reads off a primitive feature
(`params.width?.value ?? 50` is `width.getD 50`, and so on). -/
structure PrimitiveParams where
  shape : String
  width : Option ℚ
  height : Option ℚ
  depth : Option ℚ
  radius : Option ℚ
  radiusTop : Option ℚ
  cylinderHeight : Option ℚ
  sphereRadius : Option ℚ
  positionX : ℚ
  positionY : ℚ
  positionZ : ℚ
  deriving DecidableEq

/-- The parameters the evaluator reads off a sketch feature. -/
structure SketchParams where
  plane : String
  planeOffset : ℚ
  deriving DecidableEq

/-- A profile as consumed by the evaluator: only the outer loop is read
(`profile.outerLoop.map(p => [p.x, p.y])`). -/
structure EvalProfile where
  outerLoop : List (ℚ × ℚ)
  deriving DecidableEq

/-- The part of `SketchData` the evaluator reads. -/
structure EvalSketchData where
  profiles : List EvalProfile
  deriving DecidableEq

/-- The parameters the evaluator reads off an extrude feature. -/
structure ExtrudeParams where
  distance : ℚ
  direction : String
  mode : String
  deriving DecidableEq

/-- Per-type payload of a `Feature` (tagged union from `types/features.ts`). -/
inductive FeatureData where
  | primitive (params : PrimitiveParams)
  | sketch (params : SketchParams) (sketchData : Option EvalSketchData)
  | extrude (params : ExtrudeParams) (sketchRefId : String) (targetBodyRefId : Option String)
  | boolOp (operation : String) (targetBodyRefId : String) (toolBodyRefId : String)
  deriving DecidableEq

/-- A feature: id, display name, `suppressed`, `_dirty`, `_cachedResult`, payload. -/
structure Feature where
  id : String
  name : String
  suppressed : Bool
  dirty : Bool
  cachedResult : Option CachedResult
  data : FeatureData
  deriving DecidableEq

/-- `EvaluationContext` from `FeatureEvaluator.ts`. -/
structure EvaluationContext where
  features : List Feature
  bodies : List (String × CachedBody)
  featureResults : List (String × List CachedBody)
  errors : List (String × String)
  deriving DecidableEq

/-- `findFeatureInContext`. -/
def findFeatureInContext (featureId : String) (ctx : EvaluationContext) : Option Feature :=
  ctx.features.find? (fun f => f.id = featureId)

/-- `findBodyIdForFeature`: first the feature's own last-evaluated body list,
then a scan of the live body map by `originFeatureId`, else `""`. The two
maps are passed explicitly because `evalExtrude` calls this against the
body map as mutated so far within its own profile loop. -/
def findBodyIdForFeature (featureId : String)
    (featureResults : List (String × List CachedBody))
    (bodies : List (String × CachedBody)) : String :=
  match mapGet featureResults featureId with
  | some (b :: _) => b.bodyId
  | _ =>
    match bodies.find? (fun p => p.2.originFeatureId = featureId) with
    | some p => p.1
    | none => ""

/-- `evalPrimitive`. -/
def evalPrimitive (feature : Feature) (p : PrimitiveParams) (k : Kt) :
    Except String (List CachedBody) × Kt :=
  let shaped : Except String (Manifold × Kt) :=
    if p.shape = "box" then
      let w := p.width.getD 50
      let h := p.height.getD 50
      let d := p.depth.getD 50
      .ok (ManifoldEngine.createBox w h d k)
    else if p.shape = "cylinder" then
      let r := p.radius.getD 25
      let rt := p.radiusTop.getD r
      let h := p.cylinderHeight.getD 50
      .ok (ManifoldEngine.createCylinder h r rt k)
    else if p.shape = "sphere" then
      .ok (ManifoldEngine.createSphere (p.sphereRadius.getD 25) k)
    else
      .error ("Unknown primitive shape: " ++ p.shape)
  match shaped with
  | .error e => (.error e, k)
  | .ok (m, k1) =>
    let mk : Manifold × Kt :=
      if p.positionX ≠ 0 ∨ p.positionY ≠ 0 ∨ p.positionZ ≠ 0 then
        ManifoldEngine.translate m p.positionX p.positionY p.positionZ k1
      else (m, k1)
    let idk := generateBodyId mk.2
    (.ok [{ manifold := mk.1, bodyId := idk.1, originFeatureId := feature.id }], idk.2)

/-- `transformToPlane`. -/
def transformToPlane (m : Manifold) (plane : String) (offset : ℚ) (k : Kt) : Manifold × Kt :=
  if plane = "XY" then
    if offset ≠ 0 then ManifoldEngine.translate m 0 0 offset k else (m, k)
  else if plane = "XZ" then
    let mk := ManifoldEngine.rotate m (-90) 0 0 k
    if offset ≠ 0 then ManifoldEngine.translate mk.1 0 offset 0 mk.2 else mk
  else if plane = "YZ" then
    let mk := ManifoldEngine.rotate m 0 90 0 k
    if offset ≠ 0 then ManifoldEngine.translate mk.1 offset 0 0 mk.2 else mk
  else (m, k)

/-- The per-profile loop of `evalExtrude`. Threads the live body map (which
`join`/`cut` mutate via `context.bodies.delete`) and the instrumentation. -/
def extrudeProfiles (feature : Feature) (eparams : ExtrudeParams)
    (targetBodyRefId : Option String) (sparams : SketchParams)
    (featureResults : List (String × List CachedBody)) :
    List EvalProfile → List (String × CachedBody) → Kt →
      List CachedBody × List (String × CachedBody) × Kt
  | [], bodies, k => ([], bodies, k)
  | profile :: rest, bodies, k =>
    let points := profile.outerLoop
    let distance := eparams.distance
    let height := if eparams.direction = "reverse" then -distance else distance
    let offset := if eparams.direction = "symmetric" then -distance / 2 else 0
    let mk0 := ManifoldEngine.extrude points |height| k
    let mk1 :=
      if eparams.direction = "reverse" then
        ManifoldEngine.translate mk0.1 0 0 (-distance) mk0.2
      else if eparams.direction = "symmetric" then
        ManifoldEngine.translate mk0.1 0 0 offset mk0.2
      else mk0
    let mk2 := transformToPlane mk1.1 sparams.plane sparams.planeOffset mk1.2
    let manifold := mk2.1
    let k1 := mk2.2
    let step : List CachedBody × List (String × CachedBody) × Kt :=
      if eparams.mode = "new" then
        let idk := generateBodyId k1
        ([{ manifold := manifold, bodyId := idk.1, originFeatureId := feature.id }], bodies, idk.2)
      else if eparams.mode = "join" then
        match targetBodyRefId with
        | some tid =>
          match mapGet bodies (findBodyIdForFeature tid featureResults bodies) with
          | some targetBody =>
            let jk := ManifoldEngine.union targetBody.manifold manifold k1
            ([{ manifold := jk.1, bodyId := targetBody.bodyId, originFeatureId := feature.id }],
              mapDelete bodies targetBody.bodyId, jk.2)
          | none =>
            let idk := generateBodyId k1
            ([{ manifold := manifold, bodyId := idk.1, originFeatureId := feature.id }], bodies, idk.2)
        | none =>
          let idk := generateBodyId k1
          ([{ manifold := manifold, bodyId := idk.1, originFeatureId := feature.id }], bodies, idk.2)
      else if eparams.mode = "cut" then
        match targetBodyRefId with
        | some tid =>
          match mapGet bodies (findBodyIdForFeature tid featureResults bodies) with
          | some targetBody =>
            let ck := ManifoldEngine.difference targetBody.manifold manifold k1
            ([{ manifold := ck.1, bodyId := targetBody.bodyId, originFeatureId := feature.id }],
              mapDelete bodies targetBody.bodyId, ck.2)
          | none => ([], bodies, k1)
        | none =>
          let idk := generateBodyId k1
          ([{ manifold := manifold, bodyId := idk.1, originFeatureId := feature.id }], bodies, idk.2)
      else
        let idk := generateBodyId k1
        ([{ manifold := manifold, bodyId := idk.1, originFeatureId := feature.id }], bodies, idk.2)
    let restResult := extrudeProfiles feature eparams targetBodyRefId sparams featureResults rest
      step.2.1 step.2.2
    (step.1 ++ restResult.1, restResult.2)

/-- `evalExtrude`: resolve the referenced sketch feature, require at least
one profile, then run the per-profile loop. -/
def evalExtrude (feature : Feature) (eparams : ExtrudeParams) (sketchRefId : String)
    (targetBodyRefId : Option String) (ctx : EvaluationContext) (k : Kt) :
    Except String (List CachedBody × List (String × CachedBody)) × Kt :=
  match findFeatureInContext sketchRefId ctx with
  | none => (.error ("Extrude: Cannot find referenced sketch " ++ sketchRefId), k)
  | some sketchFeature =>
    match sketchFeature.data with
    | .sketch sparams sketchData =>
      match sketchData with
      | none => (.error "Extrude: No profiles found in sketch", k)
      | some sd =>
        if sd.profiles.isEmpty then (.error "Extrude: No profiles found in sketch", k)
        else
          let r := extrudeProfiles feature eparams targetBodyRefId sparams
            ctx.featureResults sd.profiles ctx.bodies k
          (.ok (r.1, r.2.1), r.2.2)
    | _ => (.error ("Extrude: Cannot find referenced sketch " ++ sketchRefId), k)

/-- `evalBoolean`. -/
def evalBoolean (feature : Feature) (operation : String) (targetRefId toolRefId : String)
    (ctx : EvaluationContext) (k : Kt) :
    Except String (List CachedBody × List (String × CachedBody)) × Kt :=
  let targetBodyId := findBodyIdForFeature targetRefId ctx.featureResults ctx.bodies
  let toolBodyId := findBodyIdForFeature toolRefId ctx.featureResults ctx.bodies
  match mapGet ctx.bodies targetBodyId, mapGet ctx.bodies toolBodyId with
  | none, _ => (.error ("Boolean: Cannot find target body from feature " ++ targetRefId), k)
  | some _, none => (.error ("Boolean: Cannot find tool body from feature " ++ toolRefId), k)
  | some targetBody, some toolBody =>
    let op : Except String (Manifold × Kt) :=
      if operation = "union" then
        .ok (ManifoldEngine.union targetBody.manifold toolBody.manifold k)
      else if operation = "difference" then
        .ok (ManifoldEngine.difference targetBody.manifold toolBody.manifold k)
      else if operation = "intersect" then
        .ok (ManifoldEngine.intersect targetBody.manifold toolBody.manifold k)
      else
        .error ("Unknown boolean operation: " ++ operation)
    match op with
    | .error e => (.error e, k)
    | .ok (m, k1) =>
      let bodies2 := mapDelete (mapDelete ctx.bodies targetBodyId) toolBodyId
      let idk := generateBodyId k1
      (.ok ([{ manifold := m, bodyId := idk.1, originFeatureId := feature.id }], bodies2), idk.2)

/-- `evaluateFeature`: type dispatch. Besides the feature's own bodies it
returns the live body map, which `evalExtrude`/`evalBoolean` may have
shrunk; every `throw` in the source happens before any such mutation, so
on error the body map is returned unchanged. -/
def evaluateFeature (feature : Feature) (ctx : EvaluationContext) (k : Kt) :
    Except String (List CachedBody × List (String × CachedBody)) × Kt :=
  match feature.data with
  | .primitive p =>
    match evalPrimitive feature p k with
    | (.ok bs, k1) => (.ok (bs, ctx.bodies), k1)
    | (.error e, k1) => (.error e, k1)
  | .sketch _ _ => (.ok ([], ctx.bodies), k)
  | .extrude e sref tref => evalExtrude feature e sref tref ctx k
  | .boolOp operation tref oref => evalBoolean feature operation tref oref ctx k

/-- One iteration of the rebuild loop: skip suppressed features, replay a
non-dirty cached feature from its cache, otherwise evaluate, catching any
error and recording it against the feature's id. -/
def rebuildStep (ctx : EvaluationContext) (k : Kt) (feature : Feature) :
    EvaluationContext × Kt :=
  if feature.suppressed then (ctx, k)
  else
    match feature.dirty, feature.cachedResult with
    | false, some cached =>
      ({ ctx with
          bodies := cached.bodies.foldl (fun m b => mapSet m b.bodyId b) ctx.bodies,
          featureResults := mapSet ctx.featureResults feature.id cached.bodies }, k)
    | _, _ =>
      match evaluateFeature feature ctx k with
      | (.ok (bs, bodies2), k1) =>
        ({ ctx with
            featureResults := mapSet ctx.featureResults feature.id bs,
            bodies := bs.foldl (fun m b => mapSet m b.bodyId b) bodies2 }, k1)
      | (.error e, k1) =>
        ({ ctx with errors := mapSet ctx.errors feature.id e }, k1)

/-- The rebuild loop over the feature list, in list order. -/
def rebuildAux : EvaluationContext → Kt → List Feature → EvaluationContext × Kt
  | ctx, k, [] => (ctx, k)
  | ctx, k, f :: rest =>
    let step := rebuildStep ctx k f
    rebuildAux step.1 step.2 rest

/-- `RebuildResult` (wall-clock `duration` is not modelled). -/
structure RebuildResult where
  success : Bool
  bodies : List (String × CachedBody)
  errors : List (String × String)
  deriving DecidableEq

/-- `rebuild`: evaluate all features from a fresh context; `success` is
`errors.size === 0`. -/
def rebuild (features : List Feature) (k : Kt) : RebuildResult × Kt :=
  let ctx0 : EvaluationContext :=
    { features := features, bodies := [], featureResults := [], errors := [] }
  let r := rebuildAux ctx0 k features
  ({ success := r.1.errors.isEmpty, bodies := r.1.bodies, errors := r.1.errors }, r.2)

/-! ### Document store (`documentStore`, `updateFeature`) -/

/-- `{ ...f, _dirty: true }`. -/
def setDirtyTrue (f : Feature) : Feature := { f with dirty := true }

/-- `updateFeature` from the document store: merge the updates into the
matching feature (forcing `_dirty: true`), then mark every feature after
its index dirty. The `Partial<Feature>` spread is modelled as an arbitrary
field-updating function. -/
def updateFeature (features : List Feature) (id : String) (updates : Feature → Feature) :
    List Feature :=
  let fs := features.map (fun f => if f.id = id then setDirtyTrue (updates f) else f)
  let index : Int := ((fs.findIdx? (fun f => f.id = id)).map Int.ofNat).getD (-1)
  fs.mapIdx (fun i f => if index < Int.ofNat i then setDirtyTrue f else f)

/-! ### Concrete instances used in witnesses and counterexamples -/

/-- A box primitive with default dimensions at the origin. -/
def boxParams : PrimitiveParams :=
  { shape := "box", width := none, height := none, depth := none, radius := none,
    radiusTop := none, cylinderHeight := none, sphereRadius := none,
    positionX := 0, positionY := 0, positionZ := 0 }

/-- A primitive feature that is not dirty but also has no cached result. -/
def primNoCacheFeature : Feature :=
  { id := "p1", name := "Primitive 1", suppressed := false, dirty := false,
    cachedResult := none, data := .primitive boxParams }

/-- A dirty primitive feature. -/
def primDirtyFeature : Feature :=
  { id := "p2", name := "Primitive 2", suppressed := false, dirty := true,
    cachedResult := none, data := .primitive boxParams }

/-- A boolean feature whose body references resolve to nothing. -/
def boolBadFeature : Feature :=
  { id := "b1", name := "Boolean 1", suppressed := false, dirty := true,
    cachedResult := none, data := .boolOp "union" "tgt" "tool" }

/-- An empty evaluation context. -/
def emptyCtx : EvaluationContext :=
  { features := [], bodies := [], featureResults := [], errors := [] }

/-- A cached body. -/
def cachedBodyA : CachedBody :=
  { manifold := .box 50 50 50, bodyId := "body-a", originFeatureId := "c1" }

/-- A clean feature with a cached result. -/
def cachedFeature : Feature :=
  { id := "c1", name := "Primitive 1", suppressed := false, dirty := false,
    cachedResult := some { bodies := [cachedBodyA], timestamp := 0 },
    data := .primitive boxParams }

/-- A unit-square profile for the evaluator. -/
def unitSquareProfile : EvalProfile := { outerLoop := [(0, 0), (1, 0), (1, 1), (0, 1)] }

/-- A sketch feature holding one profile. -/
def sketchFeatureS1 : Feature :=
  { id := "s1", name := "Sketch 1", suppressed := false, dirty := true, cachedResult := none,
    data := .sketch { plane := "XY", planeOffset := 0 } (some { profiles := [unitSquareProfile] }) }

/-- Cut-mode extrude parameters. -/
def extrudeParamsCut : ExtrudeParams := { distance := 5, direction := "normal", mode := "cut" }

/-- A cut extrude whose target body reference resolves to no live body. -/
def cutExtrudeFeature : Feature :=
  { id := "e1", name := "Extrude 1", suppressed := false, dirty := true, cachedResult := none,
    data := .extrude extrudeParamsCut "s1" (some "ghost") }

/-- A context holding only the sketch feature. -/
def sketchCtx : EvaluationContext :=
  { features := [sketchFeatureS1], bodies := [], featureResults := [], errors := [] }

/-- First feature of the store example. -/
def featF1 : Feature :=
  { id := "f1", name := "A", suppressed := false, dirty := false,
    cachedResult := some { bodies := [cachedBodyA], timestamp := 3 },
    data := .primitive boxParams }

/-- Second feature of the store example. -/
def featF2 : Feature :=
  { id := "f2", name := "B", suppressed := false, dirty := false,
    cachedResult := none, data := .primitive boxParams }

/-- Third feature of the store example. -/
def featF3 : Feature :=
  { id := "f3", name := "C", suppressed := false, dirty := false,
    cachedResult := some { bodies := [], timestamp := 1 },
    data := .primitive boxParams }

/-- An update function that renames a feature. -/
def renameUpdate : Feature → Feature := fun g => { g with name := "renamed" }

/-! ## Part 2: Sketch geometry (`types/sketch.ts`, `ProfileDetector.ts`,
`SketchEngine.ts`) over `ℝ` -/

noncomputable section

/-- `Point2D`. -/
structure Point2D where
  x : ℝ
  y : ℝ

/-- `SketchEntity` (tagged union). The `end` field of a line is `lineEnd`
here because `end` is reserved. -/
inductive SketchEntity where
  | point (id : String) (construction : Bool) (position : Point2D)
  | line (id : String) (construction : Bool) (lineStart lineEnd : Point2D)
  | rectangle (id : String) (construction : Bool) (corner1 corner2 : Point2D)
  | circle (id : String) (construction : Bool) (center : Point2D) (radius : ℝ)
  | arc (id : String) (construction : Bool) (center : Point2D)
      (radius startAngle endAngle : ℝ)

/-- The `id` field common to all entity variants. -/
def SketchEntity.id : SketchEntity → String
  | .point i _ _ => i
  | .line i _ _ _ => i
  | .rectangle i _ _ _ => i
  | .circle i _ _ _ => i
  | .arc i _ _ _ _ _ => i

/-- The `construction` flag common to all entity variants. -/
def SketchEntity.construction : SketchEntity → Bool
  | .point _ c _ => c
  | .line _ c _ _ => c
  | .rectangle _ c _ _ => c
  | .circle _ c _ _ => c
  | .arc _ c _ _ _ _ => c

/-- `Constraint` (tagged union: unary / binary / dimension). -/
inductive Constraint where
  | unary (id ctype : String) (entityId : String)
  | binary (id ctype : String) (entityId1 entityId2 : String)
  | dimension (id ctype : String) (entityId1 : String) (entityId2 : Option String) (value : ℝ)

/-- Axis-aligned bounding box. -/
structure BoundingBox where
  boxMin : Point2D
  boxMax : Point2D

/-- `Profile`. The display id (`generateProfileId`, an opaque random
string never read by any consumer) is not modelled. -/
structure Profile where
  outerLoop : List Point2D
  innerLoops : List (List Point2D)
  area : ℝ
  boundingBox : BoundingBox

/-! ### ProfileDetector -/

/-- Point-merge tolerance (`TOLERANCE = 1.0`). -/
def TOLERANCE : ℝ := 1

/-- Derived edge: lines map 1:1, arcs are flattened to their chord. -/
structure Edge where
  entityId : String
  edgeStart : Point2D
  edgeEnd : Point2D

/-- Fallback edge for out-of-range list indexing (indices produced by the
algorithm are always in range). -/
def defaultEdge : Edge := { entityId := "", edgeStart := ⟨0, 0⟩, edgeEnd := ⟨0, 0⟩ }

/-- One incident-edge record of a graph node. -/
structure NodeEdgeRef where
  edgeIndex : Nat
  otherNodeIndex : Nat

/-- `GraphNode`. -/
structure GraphNode where
  point : Point2D
  edges : List NodeEdgeRef

/-- Fallback node for out-of-range list indexing. -/
def defaultNode : GraphNode := { point := ⟨0, 0⟩, edges := [] }

/-- JavaScript `Math.round`: round half towards positive infinity. -/
def jsRound (x : ℝ) : ℤ := ⌊x + 1 / 2⌋

/-- `pointKey`: `Math.round(p.x / TOLERANCE) * TOLERANCE` (with
`TOLERANCE = 1.0`) printed with `toFixed(3)`; two points get the same key
exactly when both rounded coordinates agree, so the key is modelled as the
pair of rounded integers. -/
def pointKey (p : Point2D) : ℤ × ℤ := (jsRound (p.x / TOLERANCE), jsRound (p.y / TOLERANCE))

/-- `pointsEqual`: componentwise comparison within `TOLERANCE`. -/
def pointsEqual (a b : Point2D) : Prop := |a.x - b.x| < TOLERANCE ∧ |a.y - b.y| < TOLERANCE

instance : DecidablePred (fun ab : Point2D × Point2D => pointsEqual ab.1 ab.2) :=
  fun _ => instDecidableAnd

instance (a b : Point2D) : Decidable (pointsEqual a b) := instDecidableAnd

/-- `buildEdgeList`: lines contribute their segment, arcs their chord
(computed from the start/end angles); other entities contribute nothing. -/
def buildEdgeList (entities : List SketchEntity) : List Edge :=
  entities.foldl (fun edges e =>
    match e with
    | .line i _ s t => edges ++ [{ entityId := i, edgeStart := s, edgeEnd := t }]
    | .arc i _ c r sa ea =>
      let chord : Edge :=
        { entityId := i,
          edgeStart := ⟨c.x + r * Real.cos sa, c.y + r * Real.sin sa⟩,
          edgeEnd := ⟨c.x + r * Real.cos ea, c.y + r * Real.sin ea⟩ }
      edges ++ [chord]
    | _ => edges) []

/-- Replace the element at an index, leaving the list unchanged when the
index is out of range. -/
def modifyNth {α : Type} (l : List α) (i : Nat) (f : α → α) : List α :=
  l.mapIdx (fun j a => if j = i then f a else a)

/-- State of `buildGraph`: the point-key map (keys in insertion order, so a
key's position is its node index), the nodes, and the adjacency lists. -/
structure BuildGraphState where
  keys : List (ℤ × ℤ)
  nodes : List GraphNode
  adjacency : List (List Nat)

/-- `getNodeIndex`: find the key, or append a fresh node for it. -/
def getNodeIndex (st : BuildGraphState) (p : Point2D) : Nat × BuildGraphState :=
  let key := pointKey p
  match st.keys.indexOf? key with
  | some i => (i, st)
  | none =>
    (st.nodes.length,
      { keys := st.keys ++ [key],
        nodes := st.nodes ++ [{ point := p, edges := [] }],
        adjacency := st.adjacency ++ [[]] })

/-- `buildGraph`: deduplicate endpoints into nodes and record, per edge,
incident-edge references and adjacency in both directions. -/
def buildGraph (edges : List Edge) : List GraphNode × List (List Nat) :=
  let final := edges.enum.foldl (fun (st : BuildGraphState) ie =>
    let edgeIndex := ie.1
    let edge := ie.2
    let s1 := getNodeIndex st edge.edgeStart
    let startNode := s1.1
    let s2 := getNodeIndex s1.2 edge.edgeEnd
    let endNode := s2.1
    let st2 := s2.2
    let nodes3 := modifyNth st2.nodes startNode
      (fun n => { n with edges := n.edges ++ [⟨edgeIndex, endNode⟩] })
    let nodes4 := modifyNth nodes3 endNode
      (fun n => { n with edges := n.edges ++ [⟨edgeIndex, startNode⟩] })
    let adj5 := modifyNth st2.adjacency startNode (fun l => l ++ [endNode])
    let adj6 := modifyNth adj5 endNode (fun l => l ++ [startNode])
    { keys := st2.keys, nodes := nodes4, adjacency := adj6 })
    { keys := [], nodes := [], adjacency := [] }
  (final.nodes, final.adjacency)

/-- Canonical key of a cycle: its edge indices as strings, sorted the way
JavaScript default `Array.sort` sorts numbers (lexicographically as
strings), joined with commas. -/
def loopKey (loop : List Nat) : String :=
  String.intercalate "," ((loop.map toString).mergeSort (fun a b => decide (a ≤ b)))

/-- State of the cycle search: the set of recorded loop keys and the loops
found so far, in discovery order. -/
structure LoopSearchState where
  visitedKeys : List String
  loops : List (List Nat)

/-- The DFS of `findClosedLoops`. `fuel` stands for `101 - depth`, so the
`depth > 100` guard of the source is the `fuel = 0` case and the
`depth >= 2` test is `fuel ≤ 99`. `pending` is the list of incident-edge
records of `current` still to be tried; an edge back to the start closes a
cycle (recorded once per canonical key), an edge to an unvisited node
recurses one level deeper. -/
def dfsLoops (nodes : List GraphNode) (startNode : Nat) (fuel : Nat) (current : Nat)
    (edgesUsed visitedInPath : List Nat) (pending : List NodeEdgeRef)
    (st : LoopSearchState) : LoopSearchState :=
  match pending with
  | [] => st
  | ref :: more =>
    let st1 :=
      if edgesUsed ≠ [] ∧ edgesUsed.getLast? = some ref.edgeIndex then st
      else if ref.otherNodeIndex = startNode ∧ fuel ≤ 99 then
        let key := loopKey (edgesUsed ++ [ref.edgeIndex])
        if key ∈ st.visitedKeys then st
        else { visitedKeys := st.visitedKeys ++ [key],
               loops := st.loops ++ [edgesUsed ++ [ref.edgeIndex]] }
      else if ref.otherNodeIndex ∉ visitedInPath then
        match fuel with
        | 0 => st
        | fuel' + 1 =>
          dfsLoops nodes startNode fuel' ref.otherNodeIndex
            (edgesUsed ++ [ref.edgeIndex]) (visitedInPath ++ [ref.otherNodeIndex])
            ((nodes.getD ref.otherNodeIndex defaultNode).edges) st
      else st
    dfsLoops nodes startNode fuel current edgesUsed visitedInPath more st1
  termination_by (fuel, pending.length)

/-- `filterSimpleCycles`: stable sort by edge count, then greedily keep
cycles whose edges are all unclaimed. -/
def filterSimpleCycles (loops : List (List Nat)) : List (List Nat) :=
  let sorted := loops.mergeSort (fun a b => decide (a.length ≤ b.length))
  (sorted.foldl (fun (acc : List (List Nat) × List Nat) loop =>
    if loop.any (fun e => e ∈ acc.2) then acc
    else (acc.1 ++ [loop], acc.2 ++ loop)) ([], [])).1

/-- `findClosedLoops`: run the DFS from every node of degree at least two,
sharing the recorded-key set and loop list across start nodes, then filter
to an edge-disjoint subset. The edge list parameter is unused, as in the
source. -/
def findClosedLoops (nodes : List GraphNode) (adjacency : List (List Nat))
    (_edges : List Edge) : List (List Nat) :=
  let st := (List.range nodes.length).foldl (fun st startNode =>
    let neighbors := adjacency.getD startNode []
    if neighbors.length < 2 then st
    else dfsLoops nodes startNode 101 startNode [] [startNode]
      ((nodes.getD startNode defaultNode).edges) st)
    { visitedKeys := [], loops := [] }
  filterSimpleCycles st.loops

/-- `loopToPoints`: walk the cycle's edges, at each step appending whichever
endpoint of the next edge is not the current point, then drop a duplicated
final point. -/
def loopToPoints (loop : List Nat) (edges : List Edge) : List Point2D :=
  match loop with
  | [] => []
  | first :: _ =>
    let startPoint := (edges.getD first defaultEdge).edgeStart
    let walk := loop.foldl (fun (acc : List Point2D × Point2D) edgeIndex =>
      let edge := edges.getD edgeIndex defaultEdge
      if pointsEqual acc.2 edge.edgeStart then (acc.1 ++ [edge.edgeEnd], edge.edgeEnd)
      else if pointsEqual acc.2 edge.edgeEnd then (acc.1 ++ [edge.edgeStart], edge.edgeStart)
      else acc) ([startPoint], startPoint)
    let pts := walk.1
    if pts.length > 1 ∧ pointsEqual (pts.headD ⟨0, 0⟩) (pts.getLastD ⟨0, 0⟩) then
      pts.dropLast
    else pts

/-- `calculateSignedArea`: the shoelace sum (positive for counter-clockwise
winding). Out-of-range defaults are never hit since every index is taken
modulo the length. -/
def calculateSignedArea (points : List Point2D) : ℝ :=
  (∑ i ∈ Finset.range points.length,
    ((points.getD i ⟨0, 0⟩).x * (points.getD ((i + 1) % points.length) ⟨0, 0⟩).y
      - (points.getD ((i + 1) % points.length) ⟨0, 0⟩).x * (points.getD i ⟨0, 0⟩).y)) / 2

/-- `calculateBoundingBox`. The source folds `Math.min`/`Math.max` starting
from infinities; for the nonempty lists it is applied to this equals
folding from the first point, which is how it is modelled (the empty case
returns a degenerate box instead of an infinite one). -/
def calculateBoundingBox (points : List Point2D) : BoundingBox :=
  match points with
  | [] => { boxMin := ⟨0, 0⟩, boxMax := ⟨0, 0⟩ }
  | p :: rest =>
    rest.foldl (fun bb q =>
      { boxMin := ⟨min bb.boxMin.x q.x, min bb.boxMin.y q.y⟩,
        boxMax := ⟨max bb.boxMax.x q.x, max bb.boxMax.y q.y⟩ })
      { boxMin := p, boxMax := p }

/-- `createProfileFromPoints`: normalize to counter-clockwise winding by
reversing when the signed area is negative; `area` is the absolute signed
area and `innerLoops` is always empty. -/
def createProfileFromPoints (points : List Point2D) : Profile :=
  let signedArea := calculateSignedArea points
  let pts := if signedArea < 0 then points.reverse else points
  { outerLoop := pts, innerLoops := [], area := |signedArea|,
    boundingBox := calculateBoundingBox pts }

/-- `createCircleProfile`: tessellate the circle to a fixed 32-segment
polygon; area is `π r²` and the bounding box is the circumscribed square. -/
def createCircleProfile (center : Point2D) (radius : ℝ) : Profile :=
  let segments : Nat := 32
  let points := (List.range segments).map (fun (i : ℕ) =>
    let angle := ((i : ℝ) / (segments : ℝ)) * Real.pi * 2
    Point2D.mk (center.x + radius * Real.cos angle) (center.y + radius * Real.sin angle))
  { outerLoop := points, innerLoops := [],
    area := Real.pi * radius * radius,
    boundingBox := { boxMin := ⟨center.x - radius, center.y - radius⟩,
                     boxMax := ⟨center.x + radius, center.y + radius⟩ } }

/-- `createRectangleProfile`: the four corners in counter-clockwise order. -/
def createRectangleProfile (corner1 corner2 : Point2D) : Profile :=
  let minX := min corner1.x corner2.x
  let maxX := max corner1.x corner2.x
  let minY := min corner1.y corner2.y
  let maxY := max corner1.y corner2.y
  { outerLoop := [⟨minX, minY⟩, ⟨maxX, minY⟩, ⟨maxX, maxY⟩, ⟨minX, maxY⟩],
    innerLoops := [],
    area := (maxX - minX) * (maxY - minY),
    boundingBox := { boxMin := ⟨minX, minY⟩, boxMax := ⟨maxX, maxY⟩ } }

/-- The circle entities of a list, as (center, radius) pairs. -/
def circleData (entities : List SketchEntity) : List (Point2D × ℝ) :=
  entities.filterMap (fun e =>
    match e with
    | .circle _ _ c r => some (c, r)
    | _ => none)

/-- The rectangle entities of a list, as corner pairs. -/
def rectangleData (entities : List SketchEntity) : List (Point2D × Point2D) :=
  entities.filterMap (fun e =>
    match e with
    | .rectangle _ _ c1 c2 => some (c1, c2)
    | _ => none)

/-- `detectProfiles`: circles and rectangles each become their own profile;
the remaining lines and arcs go through the graph cycle search, and each
accepted cycle of at least three points becomes a profile. -/
def detectProfiles (entities : List SketchEntity) : List Profile :=
  let nonConstruction := entities.filter (fun e => !e.construction)
  let profiles :=
    (circleData nonConstruction).map (fun c => createCircleProfile c.1 c.2)
      ++ (rectangleData nonConstruction).map (fun r => createRectangleProfile r.1 r.2)
  let edges := buildEdgeList nonConstruction
  if edges.isEmpty then profiles
  else
    let graph := buildGraph edges
    let loops := findClosedLoops graph.1 graph.2 edges
    profiles ++ loops.filterMap (fun loop =>
      let points := loopToPoints loop edges
      if points.length ≥ 3 then some (createProfileFromPoints points) else none)

/-! ### SketchEngine -/

/-- Snap distance threshold (`SNAP_DISTANCE = 10`). -/
def SNAP_DISTANCE : ℝ := 10

/-- `SnapType`. -/
inductive SnapType where
  | endpoint
  | midpoint
  | center
  | quadrant
  | grid
  | origin
  | intersection
  deriving DecidableEq

/-- `SnapResult` (`type` is `snapType` here; `entityId` is `null` or an id,
with the origin reported under the pseudo-id `"origin"`). -/
structure SnapResult where
  point : Point2D
  entityId : Option String
  snapType : SnapType

/-- `SketchData`. -/
structure SketchData where
  entities : List SketchEntity
  constraints : List Constraint
  profiles : List Profile
  gridSize : ℝ
  snapEnabled : Bool

/-- `createSketchData`. -/
def createSketchData : SketchData :=
  { entities := [], constraints := [], profiles := [], gridSize := 10, snapEnabled := true }

/-- The sketch engine's mutable state: the active sketch (or none while
idle), the plane name, and the id counter standing in for `generateId`. -/
structure EngineState where
  activeSketch : Option SketchData
  plane : Option String
  nextId : Nat

/-- `generateId` from `idGenerator.ts`: a fresh opaque id per call. -/
def generateId (st : EngineState) : String × EngineState :=
  ("id-" ++ toString st.nextId, { st with nextId := st.nextId + 1 })

/-- `distance`. -/
def distance (a b : Point2D) : ℝ :=
  Real.sqrt ((a.x - b.x) * (a.x - b.x) + (a.y - b.y) * (a.y - b.y))

/-- `midpoint`. -/
def midpoint (a b : Point2D) : Point2D := ⟨(a.x + b.x) / 2, (a.y + b.y) / 2⟩

/-- `addLine`: requires an active sketch, else throws. -/
def addLine (st : EngineState) (lineStart lineEnd : Point2D) :
    Except String (SketchEntity × EngineState) :=
  match st.activeSketch with
  | none => .error "No active sketch"
  | some sketch =>
    let idg := generateId st
    let line := SketchEntity.line idg.1 false lineStart lineEnd
    .ok (line,
      { idg.2 with activeSketch := some { sketch with entities := sketch.entities ++ [line] } })

/-- `addRectangle`. -/
def addRectangle (st : EngineState) (corner1 corner2 : Point2D) :
    Except String (SketchEntity × EngineState) :=
  match st.activeSketch with
  | none => .error "No active sketch"
  | some sketch =>
    let idg := generateId st
    let rect := SketchEntity.rectangle idg.1 false corner1 corner2
    .ok (rect,
      { idg.2 with activeSketch := some { sketch with entities := sketch.entities ++ [rect] } })

/-- `addCircle`. -/
def addCircle (st : EngineState) (center : Point2D) (radius : ℝ) :
    Except String (SketchEntity × EngineState) :=
  match st.activeSketch with
  | none => .error "No active sketch"
  | some sketch =>
    let idg := generateId st
    let circle := SketchEntity.circle idg.1 false center radius
    .ok (circle,
      { idg.2 with activeSketch := some { sketch with entities := sketch.entities ++ [circle] } })

/-- `addPoint`. -/
def addPoint (st : EngineState) (position : Point2D) :
    Except String (SketchEntity × EngineState) :=
  match st.activeSketch with
  | none => .error "No active sketch"
  | some sketch =>
    let idg := generateId st
    let pt := SketchEntity.point idg.1 false position
    .ok (pt,
      { idg.2 with activeSketch := some { sketch with entities := sketch.entities ++ [pt] } })

/-- `addArc`. -/
def addArc (st : EngineState) (center : Point2D) (radius startAngle endAngle : ℝ) :
    Except String (SketchEntity × EngineState) :=
  match st.activeSketch with
  | none => .error "No active sketch"
  | some sketch =>
    let idg := generateId st
    let arc := SketchEntity.arc idg.1 false center radius startAngle endAngle
    .ok (arc,
      { idg.2 with activeSketch := some { sketch with entities := sketch.entities ++ [arc] } })

/-- `updateEntity`: replace the matching entity by its updated version (the
`Partial<SketchEntity>` spread is modelled as a field-updating function);
no-op when the id is absent, but still a session-state error when no sketch
is active. -/
def updateEntity (st : EngineState) (id : String) (updates : SketchEntity → SketchEntity) :
    Except String (Unit × EngineState) :=
  match st.activeSketch with
  | none => .error "No active sketch"
  | some sketch =>
    let entities :=
      match sketch.entities.findIdx? (fun e => e.id = id) with
      | some index => sketch.entities.mapIdx (fun i e => if i = index then updates e else e)
      | none => sketch.entities
    .ok ((), { st with activeSketch := some { sketch with entities := entities } })

/-- Whether a constraint references an entity id (the `'entityId' in c`
field-presence tests of `deleteEntity`). -/
def constraintReferences (c : Constraint) (id : String) : Bool :=
  match c with
  | .unary _ _ entityId => entityId = id
  | .binary _ _ entityId1 entityId2 => entityId1 = id ∨ entityId2 = id
  | .dimension _ _ entityId1 entityId2 _ => entityId1 = id ∨ entityId2 = some id

/-- `deleteEntity`: drop the entity and every constraint referencing it. -/
def deleteEntity (st : EngineState) (id : String) : Except String (Unit × EngineState) :=
  match st.activeSketch with
  | none => .error "No active sketch"
  | some sketch =>
    let sketch2 :=
      { sketch with
        entities := sketch.entities.filter (fun e => e.id ≠ id),
        constraints := sketch.constraints.filter (fun c => !constraintReferences c id) }
    .ok ((), { st with activeSketch := some sketch2 })

/-- A snap-point candidate with its type. -/
structure SnapPointWithType where
  point : Point2D
  snapType : SnapType

/-- `getEntitySnapPoints`: the type-specific canonical snap points. -/
def getEntitySnapPoints : SketchEntity → List SnapPointWithType
  | .point _ _ position => [⟨position, .endpoint⟩]
  | .line _ _ s e => [⟨s, .endpoint⟩, ⟨e, .endpoint⟩, ⟨midpoint s e, .midpoint⟩]
  | .rectangle _ _ corner1 corner2 =>
    [⟨corner1, .endpoint⟩, ⟨corner2, .endpoint⟩,
     ⟨⟨corner1.x, corner2.y⟩, .endpoint⟩, ⟨⟨corner2.x, corner1.y⟩, .endpoint⟩,
     ⟨midpoint corner1 corner2, .center⟩,
     ⟨⟨(corner1.x + corner2.x) / 2, corner1.y⟩, .midpoint⟩,
     ⟨⟨(corner1.x + corner2.x) / 2, corner2.y⟩, .midpoint⟩,
     ⟨⟨corner1.x, (corner1.y + corner2.y) / 2⟩, .midpoint⟩,
     ⟨⟨corner2.x, (corner1.y + corner2.y) / 2⟩, .midpoint⟩]
  | .circle _ _ c r =>
    [⟨c, .center⟩, ⟨⟨c.x + r, c.y⟩, .quadrant⟩, ⟨⟨c.x - r, c.y⟩, .quadrant⟩,
     ⟨⟨c.x, c.y + r⟩, .quadrant⟩, ⟨⟨c.x, c.y - r⟩, .quadrant⟩]
  | .arc _ _ c r startAngle endAngle =>
    let midAngle := (startAngle + endAngle) / 2
    [⟨c, .center⟩,
     ⟨⟨c.x + r * Real.cos startAngle, c.y + r * Real.sin startAngle⟩, .endpoint⟩,
     ⟨⟨c.x + r * Real.cos endAngle, c.y + r * Real.sin endAngle⟩, .endpoint⟩,
     ⟨⟨c.x + r * Real.cos midAngle, c.y + r * Real.sin midAngle⟩, .midpoint⟩]

/-- Accumulator of the `findSnapPoint` scan. -/
structure SnapAcc where
  nearestPoint : Option Point2D
  nearestEntityId : Option String
  nearestType : SnapType
  nearestDistance : ℝ

/-- One candidate test of the `findSnapPoint` scan: keep the candidate
exactly when it is strictly closer than the best so far. -/
def snapFoldStep (position : Point2D) (entityId : String) (acc : SnapAcc)
    (sp : SnapPointWithType) : SnapAcc :=
  let dist := distance position sp.point
  if dist < acc.nearestDistance then ⟨some sp.point, some entityId, sp.snapType, dist⟩ else acc

/-- The grid-line intersection nearest to a position
(`Math.round(position.x / gridSize) * gridSize`, per coordinate). -/
def gridSnapPoint (sketch : SketchData) (position : Point2D) : Point2D :=
  ⟨(jsRound (position.x / sketch.gridSize) : ℝ) * sketch.gridSize,
   (jsRound (position.y / sketch.gridSize) : ℝ) * sketch.gridSize⟩

/-- The entity loop of `findSnapPoint`: fold every snap point of every
non-excluded entity over the candidate test, starting from the
`SNAP_DISTANCE` threshold. -/
def snapScan (position : Point2D) (excludeEntityId : Option String)
    (entities : List SketchEntity) : SnapAcc :=
  entities.foldl (fun acc entity =>
    if some entity.id = excludeEntityId then acc
    else (getEntitySnapPoints entity).foldl (snapFoldStep position entity.id) acc)
    ⟨none, none, .grid, SNAP_DISTANCE⟩

/-- The grid step of `findSnapPoint`: when grid snap is enabled, take the
grid intersection if it is strictly closer than the best candidate so far. -/
def snapGridStep (sketch : SketchData) (position : Point2D) (acc : SnapAcc) : SnapAcc :=
  if sketch.snapEnabled then
    let gridPoint := gridSnapPoint sketch position
    let gridDist := distance position gridPoint
    if gridDist < acc.nearestDistance then ⟨some gridPoint, none, .grid, gridDist⟩ else acc
  else acc

/-- `findSnapPoint`: scan the entity snap points (skipping the excluded
entity), then the grid intersection when grid snap is enabled, keeping the
strictly nearest candidate within `SNAP_DISTANCE`; finally the origin is
returned instead whenever it is strictly closer than the best candidate. -/
def findSnapPoint (st : EngineState) (position : Point2D) (excludeEntityId : Option String) :
    Option SnapResult :=
  match st.activeSketch with
  | none => none
  | some sketch =>
    let acc1 := snapGridStep sketch position (snapScan position excludeEntityId sketch.entities)
    let originDist := distance position ⟨0, 0⟩
    if originDist < acc1.nearestDistance then
      some ⟨⟨0, 0⟩, some "origin", .origin⟩
    else
      match acc1.nearestPoint with
      | some p => some ⟨p, acc1.nearestEntityId, acc1.nearestType⟩
      | none => none

/-- Result of `pointToLineDistance`: distance and clamped parameter. -/
structure DistT where
  dist : ℝ
  t : ℝ

/-- `pointToLineDistance`: perpendicular projection with `t` clamped to
`[0, 1]`. -/
def pointToLineDistance (point lineStart lineEnd : Point2D) : DistT :=
  let dx := lineEnd.x - lineStart.x
  let dy := lineEnd.y - lineStart.y
  let lengthSquared := dx * dx + dy * dy
  if lengthSquared = 0 then ⟨distance point lineStart, 0⟩
  else
    let t0 := ((point.x - lineStart.x) * dx + (point.y - lineStart.y) * dy) / lengthSquared
    let t := max 0 (min 1 t0)
    let closestPoint := Point2D.mk (lineStart.x + t * dx) (lineStart.y + t * dy)
    ⟨distance point closestPoint, t⟩

/-- Result of `lineLineIntersection`. -/
structure LLInt where
  point : Point2D
  t1 : ℝ
  t2 : ℝ

/-- `lineLineIntersection`: 2×2 linear solve; `none` for near-parallel
segments or when either parameter leaves `[0.001, 0.999]`. -/
def lineLineIntersection (p1 p2 p3 p4 : Point2D) : Option LLInt :=
  let d1x := p2.x - p1.x
  let d1y := p2.y - p1.y
  let d2x := p4.x - p3.x
  let d2y := p4.y - p3.y
  let cross := d1x * d2y - d1y * d2x
  if |cross| < 0.0001 then none
  else
    let dx := p3.x - p1.x
    let dy := p3.y - p1.y
    let t1 := (dx * d2y - dy * d2x) / cross
    let t2 := (dx * d1y - dy * d1x) / cross
    if 0.001 ≤ t1 ∧ t1 ≤ 0.999 ∧ 0.001 ≤ t2 ∧ t2 ≤ 0.999 then
      some ⟨⟨p1.x + t1 * d1x, p1.y + t1 * d1y⟩, t1, t2⟩
    else none

/-- Result of `lineCircleIntersection`. -/
structure CircInt where
  point : Point2D
  t : ℝ

/-- `lineCircleIntersection`: quadratic solve, keeping roots with parameter
in `[0.001, 0.999]` and dropping a duplicated double root. -/
def lineCircleIntersection (lineStart lineEnd center : Point2D) (radius : ℝ) : List CircInt :=
  let dx := lineEnd.x - lineStart.x
  let dy := lineEnd.y - lineStart.y
  let fx := lineStart.x - center.x
  let fy := lineStart.y - center.y
  let a := dx * dx + dy * dy
  let b := 2 * (fx * dx + fy * dy)
  let c := fx * fx + fy * fy - radius * radius
  let discriminant := b * b - 4 * a * c
  if discriminant < 0 then []
  else
    let sqrtDisc := Real.sqrt discriminant
    let t1 := (-b - sqrtDisc) / (2 * a)
    let t2 := (-b + sqrtDisc) / (2 * a)
    let first :=
      if 0.001 ≤ t1 ∧ t1 ≤ 0.999 then
        [CircInt.mk ⟨lineStart.x + t1 * dx, lineStart.y + t1 * dy⟩ t1]
      else []
    let second :=
      if 0.001 ≤ t2 ∧ t2 ≤ 0.999 ∧ |t2 - t1| > 0.001 then
        [CircInt.mk ⟨lineStart.x + t2 * dx, lineStart.y + t2 * dy⟩ t2]
      else []
    first ++ second

/-- One entry of `findLineIntersections`. -/
structure Intersection where
  point : Point2D
  t : ℝ
  otherEntityId : String

/-- `findLineIntersections`: intersect the given line against every other
entity (line–line directly, line–circle via quadratic solve, line–rectangle
as four edge checks) and sort ascending by `t`. -/
def findLineIntersections (st : EngineState) (lineId : String) : List Intersection :=
  match st.activeSketch with
  | none => []
  | some sketch =>
    match sketch.entities.find? (fun e => e.id = lineId) with
    | some (.line _ _ s e) =>
      let intersections := sketch.entities.foldl (fun acc entity =>
        if entity.id = lineId then acc
        else
          match entity with
          | .line _ _ s2 e2 =>
            match lineLineIntersection s e s2 e2 with
            | some r => acc ++ [⟨r.point, r.t1, entity.id⟩]
            | none => acc
          | .circle _ _ c r =>
            acc ++ (lineCircleIntersection s e c r).map
              (fun ci => Intersection.mk ci.point ci.t entity.id)
          | .rectangle _ _ corner1 corner2 =>
            let corners := [corner1, ⟨corner2.x, corner1.y⟩, corner2, ⟨corner1.x, corner2.y⟩]
            acc ++ (List.range 4).filterMap (fun i =>
              (lineLineIntersection s e (corners.getD i ⟨0, 0⟩)
                  (corners.getD ((i + 1) % 4) ⟨0, 0⟩)).map
                (fun r => Intersection.mk r.point r.t1 entity.id))
          | _ => acc) []
      intersections.mergeSort (fun a b => decide (a.t ≤ b.t))
    | _ => []

/-- Fallback entity for out-of-range list indexing. -/
def defaultEntity : SketchEntity := .point "" false ⟨0, 0⟩

/-- `trimLineAt`: enumerate the line's intersections, bracket the clicked
parameter, delete the original line, and re-add the sub-segments outside
the bracket whose parametric span clears the epsilon guards. Returns
`false` (without touching the sketch) when the line is missing or has no
intersections, and also when no sketch is active. -/
def trimLineAt (st : EngineState) (lineId : String) (clickPoint : Point2D) :
    Except String (Bool × EngineState) :=
  match st.activeSketch with
  | none => .ok (false, st)
  | some sketch =>
    match sketch.entities.findIdx? (fun e => e.id = lineId) with
    | none => .ok (false, st)
    | some lineIndex =>
      match sketch.entities.getD lineIndex defaultEntity with
      | .line _ _ lineStart lineEnd =>
        let intersections := findLineIntersections st lineId
        if intersections.isEmpty then .ok (false, st)
        else
          let clickT := (pointToLineDistance clickPoint lineStart lineEnd).t
          let bracket := intersections.foldl (fun (br : ℝ × ℝ) inter =>
            let lt := if inter.t < clickT ∧ inter.t > br.1 then inter.t else br.1
            let rt := if inter.t > clickT ∧ inter.t < br.2 then inter.t else br.2
            (lt, rt)) (0, 1)
          let leftT := bracket.1
          let rightT := bracket.2
          let spliced := { sketch with entities := sketch.entities.eraseIdx lineIndex }
          let st1 := { st with activeSketch := some spliced }
          do
            let st2 ←
              if leftT > 0.001 then
                let leftEnd := Point2D.mk (lineStart.x + leftT * (lineEnd.x - lineStart.x))
                  (lineStart.y + leftT * (lineEnd.y - lineStart.y))
                (addLine st1 lineStart leftEnd).map (fun r => r.2)
              else pure st1
            let st3 ←
              if rightT < 0.999 then
                let rightStart := Point2D.mk (lineStart.x + rightT * (lineEnd.x - lineStart.x))
                  (lineStart.y + rightT * (lineEnd.y - lineStart.y))
                (addLine st2 rightStart lineEnd).map (fun r => r.2)
              else pure st2
            pure (true, st3)
      | _ => .ok (false, st)

/-- `offsetLine`: a new parallel line on the side of the reference point;
`none` for a missing or degenerate line (and when no sketch is active). -/
def offsetLine (st : EngineState) (lineId : String) (offsetDistance : ℝ)
    (referencePoint : Point2D) : Except String (Option SketchEntity × EngineState) :=
  match st.activeSketch with
  | none => .ok (none, st)
  | some sketch =>
    match sketch.entities.find? (fun e => e.id = lineId) with
    | some (.line _ _ s e) =>
      let dx := e.x - s.x
      let dy := e.y - s.y
      let length := Real.sqrt (dx * dx + dy * dy)
      if length < 0.001 then .ok (none, st)
      else
        let perpX := -dy / length
        let perpY := dx / length
        let midPoint := Point2D.mk ((s.x + e.x) / 2) ((s.y + e.y) / 2)
        let dot := (referencePoint.x - midPoint.x) * perpX + (referencePoint.y - midPoint.y) * perpY
        let side : ℝ := if dot > 0 then 1 else -1
        let offset := offsetDistance * side
        let newStart := Point2D.mk (s.x + perpX * offset) (s.y + perpY * offset)
        let newEnd := Point2D.mk (e.x + perpX * offset) (e.y + perpY * offset)
        (addLine st newStart newEnd).map (fun r => (some r.1, r.2))
    | _ => .ok (none, st)

/-- `offsetCircle`: a concentric circle, grown when the reference point is
outside and shrunk when inside; `none` when the result would be too small
(and when the circle is missing or no sketch is active). -/
def offsetCircle (st : EngineState) (circleId : String) (offsetDistance : ℝ)
    (referencePoint : Point2D) : Except String (Option SketchEntity × EngineState) :=
  match st.activeSketch with
  | none => .ok (none, st)
  | some sketch =>
    match sketch.entities.find? (fun e => e.id = circleId) with
    | some (.circle _ _ center radius) =>
      let distToCenter := Real.sqrt ((referencePoint.x - center.x) * (referencePoint.x - center.x)
        + (referencePoint.y - center.y) * (referencePoint.y - center.y))
      let isOutside := distToCenter > radius
      let newRadius := if isOutside then radius + offsetDistance else radius - offsetDistance
      if newRadius < 0.1 then .ok (none, st)
      else (addCircle st center newRadius).map (fun r => (some r.1, r.2))
    | _ => .ok (none, st)

/-- `offsetRectangle`: a parallel rectangle, expanded when the reference
point is outside the bounds and contracted when inside; `none` when a side
would collapse (and when the rectangle is missing or no sketch is active). -/
def offsetRectangle (st : EngineState) (rectId : String) (offsetDistance : ℝ)
    (referencePoint : Point2D) : Except String (Option SketchEntity × EngineState) :=
  match st.activeSketch with
  | none => .ok (none, st)
  | some sketch =>
    match sketch.entities.find? (fun e => e.id = rectId) with
    | some (.rectangle _ _ corner1 corner2) =>
      let minX := min corner1.x corner2.x
      let maxX := max corner1.x corner2.x
      let minY := min corner1.y corner2.y
      let maxY := max corner1.y corner2.y
      let isInside := minX < referencePoint.x ∧ referencePoint.x < maxX
        ∧ minY < referencePoint.y ∧ referencePoint.y < maxY
      let offset := if isInside then -offsetDistance else offsetDistance
      let newCorner1 := Point2D.mk (minX - offset) (minY - offset)
      let newCorner2 := Point2D.mk (maxX + offset) (maxY + offset)
      if newCorner2.x - newCorner1.x < 0.1 ∨ newCorner2.y - newCorner1.y < 0.1 then .ok (none, st)
      else (addRectangle st newCorner1 newCorner2).map (fun r => (some r.1, r.2))
    | _ => .ok (none, st)

/-- The rectangle with corners (0,0) and (10,10). -/
def rectEntity : SketchEntity := .rectangle "r1" false ⟨0, 0⟩ ⟨10, 10⟩

/-- A sketch holding one point entity at (5,0), with grid snap off. -/
def snapSketch : SketchData :=
  { entities := [.point "P1" false ⟨5, 0⟩], constraints := [], profiles := [],
    gridSize := 10, snapEnabled := false }

/-- Engine state with `snapSketch` active. -/
def snapState : EngineState :=
  { activeSketch := some snapSketch, plane := some "XY", nextId := 1 }

/-- An empty sketch with grid snap off. -/
def emptySnapSketch : SketchData :=
  { entities := [], constraints := [], profiles := [], gridSize := 10, snapEnabled := false }

/-- Engine state with `emptySnapSketch` active. -/
def emptySnapState : EngineState :=
  { activeSketch := some emptySnapSketch, plane := some "XY", nextId := 0 }

/-- The horizontal line (0,0)-(20,0). -/
def lineL1 : SketchEntity := .line "L1" false ⟨0, 0⟩ ⟨20, 0⟩

/-- The vertical line (10,-5)-(10,5), crossing `lineL1` at parameter 1/2. -/
def lineL2 : SketchEntity := .line "L2" false ⟨10, -5⟩ ⟨10, 5⟩

/-- A sketch holding the two crossing lines. -/
def trimSketch : SketchData :=
  { entities := [lineL1, lineL2], constraints := [], profiles := [],
    gridSize := 10, snapEnabled := true }

/-- Engine state with `trimSketch` active. -/
def trimState : EngineState :=
  { activeSketch := some trimSketch, plane := some "XY", nextId := 2 }

/-- A sketch holding only `lineL1`. -/
def singleLineSketch : SketchData :=
  { entities := [lineL1], constraints := [], profiles := [],
    gridSize := 10, snapEnabled := true }

/-- Engine state with `singleLineSketch` active. -/
def singleLineState : EngineState :=
  { activeSketch := some singleLineSketch, plane := some "XY", nextId := 1 }

/-- Engine state with no active sketch session. -/
def idleState : EngineState := { activeSketch := none, plane := none, nextId := 0 }

end


/-! ## Theorems -/

/-- Claim C1: `rebuild` evaluates features in list order and isolates
per-feature failures: when evaluating a single (unsuppressed, not
cache-replayable) feature throws, the message is recorded in the errors
map under that feature's id and evaluation continues with the remaining
features from an otherwise unchanged context; the returned success flag is
true exactly when the errors map is empty. -/
theorem rebuild_isolates_feature_failures
    (features : List Feature) (k : Kt)
    (ctx : EvaluationContext) (f : Feature) (rest : List Feature) (m : String) (k1 : Kt)
    (hs : f.suppressed = false)
    (hc : f.dirty = true ∨ f.cachedResult = none)
    (he : evaluateFeature f ctx k = (.error m, k1)) :
    ((rebuild features k).1.success = true ↔ (rebuild features k).1.errors = []) ∧
    rebuildAux ctx k (f :: rest) =
      rebuildAux { ctx with errors := mapSet ctx.errors f.id m } k1 rest := by
  constructor
  · simp [rebuild]
  · show rebuildAux (rebuildStep ctx k f).1 (rebuildStep ctx k f).2 rest = _
    have hstep : rebuildStep ctx k f = ({ ctx with errors := mapSet ctx.errors f.id m }, k1) := by
      unfold rebuildStep
      rw [if_neg (by simp [hs])]
      rcases hc with hd | hcr
      · rw [hd, he]
      · cases hdv : f.dirty <;> rw [hcr, he]
    rw [hstep]

/-- Witness for C1: a boolean feature with unresolvable body references
errors, is recorded under its id, and the rebuild continues. -/
theorem rebuild_isolates_feature_failures_witness :
    ((rebuild [boolBadFeature] ⟨0, 0⟩).1.success = true ↔
        (rebuild [boolBadFeature] ⟨0, 0⟩).1.errors = []) ∧
    rebuildAux emptyCtx ⟨0, 0⟩ [boolBadFeature, primDirtyFeature] =
      rebuildAux { emptyCtx with
                   errors := mapSet emptyCtx.errors boolBadFeature.id
                     "Boolean: Cannot find target body from feature tgt" }
        ⟨0, 0⟩ [primDirtyFeature] :=
  rebuild_isolates_feature_failures [boolBadFeature] ⟨0, 0⟩ emptyCtx boolBadFeature
    [primDirtyFeature] "Boolean: Cannot find target body from feature tgt" ⟨0, 0⟩
    rfl (Or.inl rfl) rfl

/-- When every feature is clean (not dirty, and cached unless suppressed),
the rebuild loop never touches the kernel or the id generator. -/
theorem rebuildAux_clean_preserves_kt (features : List Feature) :
    ∀ (ctx : EvaluationContext) (k : Kt),
    (∀ g ∈ features, g.dirty = false ∧ (g.suppressed = false → g.cachedResult ≠ none)) →
    (rebuildAux ctx k features).2 = k := by
  induction features with
  | nil => intro ctx k _; rfl
  | cons f rest ih =>
    intro ctx k h
    have hf := h f (by simp)
    have hrest : ∀ g ∈ rest, g.dirty = false ∧ (g.suppressed = false → g.cachedResult ≠ none) :=
      fun g hg => h g (by simp [hg])
    show (rebuildAux (rebuildStep ctx k f).1 (rebuildStep ctx k f).2 rest).2 = k
    have hstep : (rebuildStep ctx k f).2 = k := by
      unfold rebuildStep
      rcases hsup : f.suppressed with _ | _
      · rw [if_neg (by simp)]
        obtain ⟨hd, hc⟩ := hf
        rcases hcr : f.cachedResult with _ | cached
        · exact absurd hcr (hc hsup)
        · rw [hd]
      · rw [if_pos rfl]
    rw [ih _ _ hrest, hstep]

/-- Claim C2 (amended): a feature that is not suppressed, not dirty, and has
a cached result is replayed by merging exactly its cached bodies into the
body map and registering them as its result, with no Solid-Kernel call and
no id generated; consequently, when no feature is dirty AND every
non-suppressed feature has a cached result, `rebuild` leaves the
instrumentation state untouched (zero kernel calls), so a second run is
the first run repeated verbatim and returns the identical result. -/
theorem rebuild_cached_replay_and_second_run
    (ctx : EvaluationContext) (k : Kt) (f : Feature) (rest : List Feature) (cached : CachedResult)
    (features : List Feature) (k0 : Kt)
    (hs : f.suppressed = false) (hd : f.dirty = false) (hc : f.cachedResult = some cached)
    (hall : ∀ g ∈ features, g.dirty = false ∧ (g.suppressed = false → g.cachedResult ≠ none)) :
    (rebuildAux ctx k (f :: rest) =
      rebuildAux { ctx with
                   bodies := cached.bodies.foldl (fun m b => mapSet m b.bodyId b) ctx.bodies,
                   featureResults := mapSet ctx.featureResults f.id cached.bodies }
        k rest) ∧
    (rebuild features k0).2 = k0 ∧
    rebuild features ((rebuild features k0).2) = rebuild features k0 := by
  refine ⟨?_, ?_, ?_⟩
  · show rebuildAux (rebuildStep ctx k f).1 (rebuildStep ctx k f).2 rest = _
    have hstep : rebuildStep ctx k f =
        ({ ctx with
           bodies := cached.bodies.foldl (fun m b => mapSet m b.bodyId b) ctx.bodies,
           featureResults := mapSet ctx.featureResults f.id cached.bodies }, k) := by
      unfold rebuildStep
      rw [if_neg (by simp [hs]), hd, hc]
    rw [hstep]
  · show (rebuildAux _ k0 features).2 = k0
    exact rebuildAux_clean_preserves_kt features _ k0 hall
  · rw [show (rebuild features k0).2 = k0 from rebuildAux_clean_preserves_kt features _ k0 hall]

/-- Witness for C2 (amended) at a concrete cached feature list. -/
theorem rebuild_cached_replay_witness :
    (rebuildAux emptyCtx ⟨5, 7⟩ [cachedFeature] =
      rebuildAux { emptyCtx with
                   bodies := [cachedBodyA].foldl (fun m b => mapSet m b.bodyId b) emptyCtx.bodies,
                   featureResults := mapSet emptyCtx.featureResults cachedFeature.id [cachedBodyA] }
        ⟨5, 7⟩ []) ∧
    (rebuild [cachedFeature] ⟨0, 0⟩).2 = ⟨0, 0⟩ ∧
    rebuild [cachedFeature] ((rebuild [cachedFeature] ⟨0, 0⟩).2) = rebuild [cachedFeature] ⟨0, 0⟩ :=
  rebuild_cached_replay_and_second_run emptyCtx ⟨5, 7⟩ cachedFeature []
    { bodies := [cachedBodyA], timestamp := 0 } [cachedFeature] ⟨0, 0⟩
    rfl rfl rfl (by decide)

/-- Counterexample to C2 as stated: in a feature list with no dirty feature
(but a missing cache), the second `rebuild` still makes a Solid-Kernel call
and returns a body map different from the first run's. -/
theorem rebuild_second_run_counterexample :
    (∀ g ∈ [primNoCacheFeature], g.dirty = false) ∧
    (rebuild [primNoCacheFeature] ⟨0, 0⟩).2.kernelCalls = 1 ∧
    (rebuild [primNoCacheFeature] ((rebuild [primNoCacheFeature] ⟨0, 0⟩).2)).2.kernelCalls = 2 ∧
    (rebuild [primNoCacheFeature] ((rebuild [primNoCacheFeature] ⟨0, 0⟩).2)).1.bodies ≠
      (rebuild [primNoCacheFeature] ⟨0, 0⟩).1.bodies := by
  exact ⟨by decide, by decide, by decide, by decide⟩

/-- A join-mode extrude whose target body cannot be resolved behaves, for
every profile, exactly like a new-mode extrude. -/
theorem extrudeProfiles_join_unresolved (feature : Feature) (e : ExtrudeParams)
    (tid : String) (sparams : SketchParams) (fr : List (String × List CachedBody))
    (bodies : List (String × CachedBody)) (hm : e.mode = "join")
    (hres : mapGet bodies (findBodyIdForFeature tid fr bodies) = none) :
    ∀ (profiles : List EvalProfile) (k : Kt),
    extrudeProfiles feature e (some tid) sparams fr profiles bodies k =
      extrudeProfiles feature { e with mode := "new" } (some tid) sparams fr profiles bodies k := by
  intro profiles
  induction profiles with
  | nil => intro k; rfl
  | cons p rest ih =>
    intro k
    simp [extrudeProfiles, hm, hres, ih]

/-- A cut-mode extrude whose target body reference is set but cannot be
resolved contributes no body for any profile and leaves the body map
untouched. -/
theorem extrudeProfiles_cut_unresolved (feature : Feature) (e : ExtrudeParams)
    (tid : String) (sparams : SketchParams) (fr : List (String × List CachedBody))
    (bodies : List (String × CachedBody)) (hm : e.mode = "cut")
    (hres : mapGet bodies (findBodyIdForFeature tid fr bodies) = none) :
    ∀ (profiles : List EvalProfile) (k : Kt), ∃ k2 : Kt,
    extrudeProfiles feature e (some tid) sparams fr profiles bodies k = ([], bodies, k2) := by
  intro profiles
  induction profiles with
  | nil => intro k; exact ⟨k, rfl⟩
  | cons p rest ih =>
    intro k
    simp only [extrudeProfiles, hm, hres]
    simp
    exact ih _

/-- An extrude with no target body reference behaves, for every profile,
exactly like a new-mode extrude whatever its mode. -/
theorem extrudeProfiles_no_target_ref (feature : Feature) (e : ExtrudeParams)
    (sparams : SketchParams) (fr : List (String × List CachedBody))
    (bodies : List (String × CachedBody)) :
    ∀ (profiles : List EvalProfile) (k : Kt),
    extrudeProfiles feature e none sparams fr profiles bodies k =
      extrudeProfiles feature { e with mode := "new" } none sparams fr profiles bodies k := by
  intro profiles
  induction profiles with
  | nil => intro k; rfl
  | cons p rest ih =>
    intro k
    by_cases h1 : e.mode = "new"
    · have he : ({ e with mode := "new" } : ExtrudeParams) = e := by
        cases e; simp_all
      rw [he]
    · by_cases h2 : e.mode = "join"
      · simp [extrudeProfiles, h1, h2, ih]
      · by_cases h3 : e.mode = "cut"
        · simp [extrudeProfiles, h1, h2, h3, ih]
        · simp [extrudeProfiles, h1, h2, h3, ih]

/-- Claim C3 (amended): for an extrude whose target body cannot be resolved
in the live body map, mode `join` falls back to `new` (a fresh body per
profile), as does either mode when no target reference is set at all, but
mode `cut` with a set-yet-unresolvable target reference produces no body at
all for any profile. -/
theorem evalExtrude_unresolved_target
    (feature : Feature) (e : ExtrudeParams) (sref tid : String)
    (ctx : EvaluationContext) (k : Kt) (sf : Feature) (sparams : SketchParams)
    (sd : EvalSketchData)
    (hsf : findFeatureInContext sref ctx = some sf)
    (hdata : sf.data = .sketch sparams (some sd))
    (hne : sd.profiles.isEmpty = false)
    (hres : mapGet ctx.bodies (findBodyIdForFeature tid ctx.featureResults ctx.bodies) = none) :
    (evalExtrude feature { e with mode := "join" } sref (some tid) ctx k =
      evalExtrude feature { e with mode := "new" } sref (some tid) ctx k) ∧
    ((evalExtrude feature { e with mode := "cut" } sref (some tid) ctx k).1 =
      .ok ([], ctx.bodies)) ∧
    (evalExtrude feature { e with mode := "cut" } sref none ctx k =
      evalExtrude feature { e with mode := "new" } sref none ctx k) ∧
    (evalExtrude feature { e with mode := "join" } sref none ctx k =
      evalExtrude feature { e with mode := "new" } sref none ctx k) := by
  have hjoin := extrudeProfiles_join_unresolved feature { e with mode := "join" } tid sparams
    ctx.featureResults ctx.bodies rfl hres sd.profiles k
  have hcut := extrudeProfiles_cut_unresolved feature { e with mode := "cut" } tid sparams
    ctx.featureResults ctx.bodies rfl hres sd.profiles k
  obtain ⟨k2, hk2⟩ := hcut
  have hnt1 := extrudeProfiles_no_target_ref feature { e with mode := "cut" } sparams
    ctx.featureResults ctx.bodies sd.profiles k
  have hnt2 := extrudeProfiles_no_target_ref feature { e with mode := "join" } sparams
    ctx.featureResults ctx.bodies sd.profiles k
  refine ⟨?_, ?_, ?_, ?_⟩
  · simp only [evalExtrude, hsf, hdata, hne, Bool.false_eq_true, if_false, hjoin]
  · simp only [evalExtrude, hsf, hdata, hne, Bool.false_eq_true, if_false, hk2]
  · simp only [evalExtrude, hsf, hdata, hne, Bool.false_eq_true, if_false, hnt1]
  · simp only [evalExtrude, hsf, hdata, hne, Bool.false_eq_true, if_false, hnt2]

/-- Witness for C3 (amended) at the concrete one-profile sketch context. -/
theorem evalExtrude_unresolved_target_witness :
    (evalExtrude cutExtrudeFeature { extrudeParamsCut with mode := "join" } "s1" (some "ghost")
        sketchCtx ⟨0, 0⟩ =
      evalExtrude cutExtrudeFeature { extrudeParamsCut with mode := "new" } "s1" (some "ghost")
        sketchCtx ⟨0, 0⟩) ∧
    ((evalExtrude cutExtrudeFeature { extrudeParamsCut with mode := "cut" } "s1" (some "ghost")
        sketchCtx ⟨0, 0⟩).1 = .ok ([], sketchCtx.bodies)) ∧
    (evalExtrude cutExtrudeFeature { extrudeParamsCut with mode := "cut" } "s1" none
        sketchCtx ⟨0, 0⟩ =
      evalExtrude cutExtrudeFeature { extrudeParamsCut with mode := "new" } "s1" none
        sketchCtx ⟨0, 0⟩) ∧
    (evalExtrude cutExtrudeFeature { extrudeParamsCut with mode := "join" } "s1" none
        sketchCtx ⟨0, 0⟩ =
      evalExtrude cutExtrudeFeature { extrudeParamsCut with mode := "new" } "s1" none
        sketchCtx ⟨0, 0⟩) :=
  evalExtrude_unresolved_target cutExtrudeFeature extrudeParamsCut "s1" "ghost" sketchCtx ⟨0, 0⟩
    sketchFeatureS1 { plane := "XY", planeOffset := 0 } { profiles := [unitSquareProfile] }
    rfl rfl rfl rfl

/-- Counterexample to C3 as stated: a cut extrude with one profile and an
unresolvable target reference returns no bodies at all instead of a fresh
body per profile. -/
theorem evalExtrude_cut_unresolved_counterexample :
    evalExtrude cutExtrudeFeature extrudeParamsCut "s1" (some "ghost") sketchCtx ⟨0, 0⟩ =
      (.ok ([], []), ⟨0, 1⟩) := rfl

/-- `findIdx?` on a list whose first match sits after a prefix of
non-matches finds exactly the prefix length (plus the start offset). -/
theorem findIdx?_after_clean_prefix {α : Type} (p : α → Bool) (x : α) (hx : p x = true) :
    ∀ (l1 l2 : List α) (i : Nat), (∀ g ∈ l1, p g = false) →
    List.findIdx? p (l1 ++ x :: l2) i = some (i + l1.length) := by
  intro l1
  induction l1 with
  | nil =>
    intro l2 i _
    simp [List.findIdx?_cons, hx]
  | cons a l1 ih =>
    intro l2 i h
    have ha : p a = false := h a (by simp)
    simp only [List.cons_append, List.findIdx?_cons, ha, Bool.false_eq_true, if_false]
    rw [ih l2 (i + 1) (fun g hg => h g (by simp [hg]))]
    simp
    omega

/-- `mapIdx` with a function that fixes every index below the length is the
identity. -/
theorem mapIdx_id_below {α : Type} :
    ∀ (l : List α) (g : Nat → α → α), (∀ i a, i < l.length → g i a = a) → l.mapIdx g = l := by
  intro l
  induction l with
  | nil => intro _ _; rfl
  | cons a l ih =>
    intro g h
    rw [List.mapIdx_cons, h 0 a (by simp)]
    rw [ih (fun i b => g (i + 1) b) (fun i b hi => h (i + 1) b (by simpa using hi))]

/-- `mapIdx` with a function that acts the same at every index is `map`. -/
theorem mapIdx_as_map {α : Type} (g0 : α → α) :
    ∀ (l : List α) (g : Nat → α → α), (∀ i a, g i a = g0 a) → l.mapIdx g = l.map g0 := by
  intro l
  induction l with
  | nil => intro _ _; rfl
  | cons a l ih =>
    intro g h
    rw [List.mapIdx_cons, h 0 a, List.map_cons]
    rw [ih (fun i b => g (i + 1) b) (fun i b => h (i + 1) b)]

/-- Claim C8: `updateFeature` marks the updated feature and every feature
after it in list order dirty (keeping their other fields, including cached
results), while every feature before it is left entirely unchanged. -/
theorem updateFeature_marks_downstream_dirty
    (pre post : List Feature) (f : Feature) (id : String) (updates : Feature → Feature)
    (hf : f.id = id) (hupd : (updates f).id = id)
    (hpre : ∀ g ∈ pre, g.id ≠ id) (hpost : ∀ g ∈ post, g.id ≠ id) :
    updateFeature (pre ++ f :: post) id updates =
      pre ++ setDirtyTrue (updates f) :: post.map setDirtyTrue := by
  unfold updateFeature
  have hmap : (pre ++ f :: post).map
      (fun g => if g.id = id then setDirtyTrue (updates g) else g) =
      pre ++ setDirtyTrue (updates f) :: post := by
    rw [List.map_append, List.map_cons, if_pos hf]
    rw [List.map_congr_left (fun g hg => if_neg (hpre g hg))]
    rw [List.map_congr_left (fun g hg => if_neg (hpost g hg))]
    simp
  have hidx : List.findIdx? (fun g => g.id = id)
      (pre ++ setDirtyTrue (updates f) :: post) 0 = some (0 + pre.length) := by
    refine findIdx?_after_clean_prefix _ _ ?_ pre post 0 ?_
    · simp [setDirtyTrue, hupd]
    · intro g hg
      simp [hpre g hg]
  simp only [hmap, hidx, Option.map_some, Option.map_some', Option.getD_some, Nat.zero_add]
  rw [List.mapIdx_append]
  rw [mapIdx_id_below pre _ (fun i a hi =>
    if_neg (by simp only [Int.ofNat_eq_natCast]; omega))]
  rw [List.mapIdx_cons]
  rw [if_neg (by simp only [Int.ofNat_eq_natCast]; omega)]
  rw [mapIdx_as_map setDirtyTrue post _ (fun i a =>
    if_pos (by simp only [Int.ofNat_eq_natCast]; omega))]

/-- Witness for C8 at a concrete three-feature list. -/
theorem updateFeature_marks_downstream_dirty_witness :
    updateFeature [featF1, featF2, featF3] "f2" renameUpdate =
      [featF1] ++ setDirtyTrue (renameUpdate featF2) :: [featF3].map setDirtyTrue :=
  updateFeature_marks_downstream_dirty [featF1] [featF3] featF2 "f2" renameUpdate
    rfl rfl (by decide) (by decide)

/-- Claim C9 (amended): with no active sketch session, the entity-creation
and entity-modification operations throw the session-state error, while
`trimLineAt` merely returns `false` and the offset operations return `none`,
all leaving the state unchanged. -/
theorem sketch_ops_require_active_session
    (st : EngineState) (h : st.activeSketch = none)
    (a b : Point2D) (r sa ea d : ℝ) (id : String) (updates : SketchEntity → SketchEntity) :
    addLine st a b = .error "No active sketch" ∧
    addRectangle st a b = .error "No active sketch" ∧
    addCircle st a r = .error "No active sketch" ∧
    addPoint st a = .error "No active sketch" ∧
    addArc st a r sa ea = .error "No active sketch" ∧
    updateEntity st id updates = .error "No active sketch" ∧
    deleteEntity st id = .error "No active sketch" ∧
    trimLineAt st id a = .ok (false, st) ∧
    offsetLine st id d a = .ok (none, st) ∧
    offsetCircle st id d a = .ok (none, st) ∧
    offsetRectangle st id d a = .ok (none, st) := by
  refine ⟨?_, ?_, ?_, ?_, ?_, ?_, ?_, ?_, ?_, ?_, ?_⟩ <;>
    simp [addLine, addRectangle, addCircle, addPoint, addArc, updateEntity, deleteEntity,
      trimLineAt, offsetLine, offsetCircle, offsetRectangle, h]

/-- Witness for C9 (amended) at the idle engine state. -/
theorem sketch_ops_require_active_session_witness :
    addLine idleState ⟨0, 0⟩ ⟨1, 1⟩ = .error "No active sketch" ∧
    addRectangle idleState ⟨0, 0⟩ ⟨1, 1⟩ = .error "No active sketch" ∧
    addCircle idleState ⟨0, 0⟩ 1 = .error "No active sketch" ∧
    addPoint idleState ⟨0, 0⟩ = .error "No active sketch" ∧
    addArc idleState ⟨0, 0⟩ 1 0 1 = .error "No active sketch" ∧
    updateEntity idleState "x" (fun e => e) = .error "No active sketch" ∧
    deleteEntity idleState "x" = .error "No active sketch" ∧
    trimLineAt idleState "x" ⟨0, 0⟩ = .ok (false, idleState) ∧
    offsetLine idleState "x" 2 ⟨0, 0⟩ = .ok (none, idleState) ∧
    offsetCircle idleState "x" 2 ⟨0, 0⟩ = .ok (none, idleState) ∧
    offsetRectangle idleState "x" 2 ⟨0, 0⟩ = .ok (none, idleState) :=
  sketch_ops_require_active_session idleState rfl ⟨0, 0⟩ ⟨1, 1⟩ 1 0 1 2 "x" (fun e => e)

/-- Counterexample to C9 as stated: with no active session, `trimLineAt` and
the offset operations return normally (`false` / `none`) instead of
throwing a session-state error. -/
theorem trim_offset_no_throw_counterexample :
    trimLineAt idleState "L1" ⟨0, 0⟩ = .ok (false, idleState) ∧
    offsetLine idleState "L1" 2 ⟨0, 0⟩ = .ok (none, idleState) ∧
    offsetCircle idleState "C1" 2 ⟨0, 0⟩ = .ok (none, idleState) ∧
    offsetRectangle idleState "R1" 2 ⟨0, 0⟩ = .ok (none, idleState) :=
  ⟨rfl, rfl, rfl, rfl⟩

/-- Claim C10: `trimLineAt` on a line with no intersections against the
other entities returns `false` and leaves the whole engine state (and so
the sketch's entity list) unchanged. -/
theorem trimLineAt_no_intersections (st : EngineState) (lineId : String) (clickPoint : Point2D)
    (h : findLineIntersections st lineId = []) :
    trimLineAt st lineId clickPoint = .ok (false, st) := by
  unfold trimLineAt
  cases hact : st.activeSketch with
  | none => rfl
  | some sketch =>
    cases hidx : sketch.entities.findIdx? (fun e => e.id = lineId) with
    | none => simp [hidx]
    | some lineIndex =>
      cases hent : sketch.entities.getD lineIndex defaultEntity with
      | point i c pos => simp [hidx, List.getD] at hent ⊢; simp [hent]
      | line i c s e => simp [hidx, List.getD] at hent ⊢; simp [hent, h]
      | rectangle i c c1 c2 => simp [hidx, List.getD] at hent ⊢; simp [hent]
      | circle i c ce ra => simp [hidx, List.getD] at hent ⊢; simp [hent]
      | arc i c ce ra saa eaa => simp [hidx, List.getD] at hent ⊢; simp [hent]

/-- Witness for C10: a sketch holding a single line has no intersections and
trimming it is a no-op returning `false`. -/
theorem trimLineAt_no_intersections_witness :
    findLineIntersections singleLineState "L1" = [] ∧
    trimLineAt singleLineState "L1" ⟨5, 3⟩ = .ok (false, singleLineState) := by
  have hfi : findLineIntersections singleLineState "L1" = [] := by
    simp [findLineIntersections, singleLineState, singleLineSketch, lineL1, SketchEntity.id]
  exact ⟨hfi, trimLineAt_no_intersections singleLineState "L1" ⟨5, 3⟩ hfi⟩

/-- Evaluating the detector on the single rectangle (0,0)-(10,10). -/
theorem detectProfiles_single_rect_eval :
    detectProfiles [rectEntity] =
      [{ outerLoop := [⟨0, 0⟩, ⟨10, 0⟩, ⟨10, 10⟩, ⟨0, 10⟩], innerLoops := [],
         area := 100, boundingBox := { boxMin := ⟨0, 0⟩, boxMax := ⟨10, 10⟩ } }] := by
  unfold detectProfiles
  norm_num [rectEntity, SketchEntity.construction, circleData, rectangleData, buildEdgeList,
    createRectangleProfile, min_def, max_def, List.filterMap_cons]

/-- Claim C4: a single non-construction Rectangle with corners (0,0) and
(10,10) yields exactly one profile, the 4-point counter-clockwise corner
loop of area 100; in general every non-construction Circle and Rectangle
contributes its own single-entity profile at the front of the result,
whatever other geometry is present. -/
theorem detectProfiles_rectangle_circle_profiles :
    (detectProfiles [rectEntity] =
      [{ outerLoop := [⟨0, 0⟩, ⟨10, 0⟩, ⟨10, 10⟩, ⟨0, 10⟩], innerLoops := [],
         area := 100, boundingBox := { boxMin := ⟨0, 0⟩, boxMax := ⟨10, 10⟩ } }]) ∧
    ∀ entities : List SketchEntity, ∃ rest : List Profile,
      detectProfiles entities =
        (circleData (entities.filter (fun e => !e.construction))).map
            (fun c => createCircleProfile c.1 c.2)
          ++ (rectangleData (entities.filter (fun e => !e.construction))).map
            (fun r => createRectangleProfile r.1 r.2)
          ++ rest := by
  refine ⟨detectProfiles_single_rect_eval, ?_⟩
  intro entities
  unfold detectProfiles
  by_cases h : (buildEdgeList (entities.filter (fun e => !e.construction))).isEmpty
  · exact ⟨[], by simp [h]⟩
  · refine ⟨(findClosedLoops
        (buildGraph (buildEdgeList (entities.filter (fun e => !e.construction)))).1
        (buildGraph (buildEdgeList (entities.filter (fun e => !e.construction)))).2
        (buildEdgeList (entities.filter (fun e => !e.construction)))).filterMap
          (fun loop =>
            if 3 ≤ (loopToPoints loop
                (buildEdgeList (entities.filter (fun e => !e.construction)))).length then
              some (createProfileFromPoints (loopToPoints loop
                (buildEdgeList (entities.filter (fun e => !e.construction)))))
            else none), ?_⟩
    simp [h]

/-- Summing a function over a cyclically shifted index runs over the same
values. -/
theorem sum_cyclic_shift (n : ℕ) (f : ℕ → ℝ) :
    ∑ i ∈ Finset.range n, f ((i + 1) % n) = ∑ i ∈ Finset.range n, f i := by
  rcases Nat.eq_zero_or_pos n with h | h
  · simp [h]
  · refine Finset.sum_nbij' (fun i => (i + 1) % n) (fun i => if i = 0 then n - 1 else i - 1)
      ?_ ?_ ?_ ?_ ?_
    · intro a ha
      exact Finset.mem_range.mpr (Nat.mod_lt _ h)
    · intro a ha
      have ha' := Finset.mem_range.mp ha
      refine Finset.mem_range.mpr ?_
      dsimp only
      split <;> omega
    · intro a ha
      dsimp only
      have ha' := Finset.mem_range.mp ha
      rcases Nat.lt_or_ge (a + 1) n with h1 | h1
      · rw [Nat.mod_eq_of_lt h1, if_neg (show ¬(a + 1 = 0) from by omega)]
        omega
      · rw [show a + 1 = n from by omega, Nat.mod_self, if_pos rfl]
        omega
    · intro b hb
      dsimp only
      have hb' := Finset.mem_range.mp hb
      rcases Nat.eq_zero_or_pos b with h0 | h0
      · rw [if_pos h0, show n - 1 + 1 = n from by omega, Nat.mod_self, h0]
      · rw [if_neg (show ¬(b = 0) from by omega), show b - 1 + 1 = b from by omega,
          Nat.mod_eq_of_lt hb']
    · intro a ha
      rfl

/-- Reversing a point list negates its shoelace signed area. -/
theorem calculateSignedArea_reverse (points : List Point2D) :
    calculateSignedArea points.reverse = -calculateSignedArea points := by
  unfold calculateSignedArea
  rw [List.length_reverse]
  rcases Nat.eq_zero_or_pos points.length with h | h
  · simp [h]
  · rw [← neg_div, ← Finset.sum_neg_distrib]
    congr 1
    have hrev : ∀ i, i < points.length →
        points.reverse.getD i ⟨0, 0⟩ = points.getD (points.length - 1 - i) ⟨0, 0⟩ := by
      intro i hi
      rw [List.getD_eq_getElem _ _ (by simpa using hi),
        List.getD_eq_getElem _ _ (by omega), List.getElem_reverse]
    refine Finset.sum_nbij'
      (fun i => if i = points.length - 1 then points.length - 1 else points.length - 2 - i)
      (fun i => if i = points.length - 1 then points.length - 1 else points.length - 2 - i)
      ?_ ?_ ?_ ?_ ?_
    · intro a ha
      refine Finset.mem_range.mpr ?_
      dsimp only
      split <;> omega
    · intro a ha
      refine Finset.mem_range.mpr ?_
      dsimp only
      split <;> omega
    · intro a ha
      dsimp only
      have ha' := Finset.mem_range.mp ha
      rcases Nat.lt_or_ge a (points.length - 1) with h1 | h1
      · rw [if_neg (show ¬(a = points.length - 1) from by omega),
          if_neg (show ¬(points.length - 2 - a = points.length - 1) from by omega)]
        omega
      · rw [if_pos (show a = points.length - 1 from by omega), if_pos rfl]
        omega
    · intro a ha
      dsimp only
      have ha' := Finset.mem_range.mp ha
      rcases Nat.lt_or_ge a (points.length - 1) with h1 | h1
      · rw [if_neg (show ¬(a = points.length - 1) from by omega),
          if_neg (show ¬(points.length - 2 - a = points.length - 1) from by omega)]
        omega
      · rw [if_pos (show a = points.length - 1 from by omega), if_pos rfl]
        omega
    · intro a ha
      dsimp only
      have ha' := Finset.mem_range.mp ha
      rcases Nat.lt_or_ge a (points.length - 1) with h1 | h1
      · rw [if_neg (show ¬(a = points.length - 1) from by omega)]
        rw [Nat.mod_eq_of_lt (by omega : a + 1 < points.length)]
        rw [Nat.mod_eq_of_lt (by omega : points.length - 2 - a + 1 < points.length)]
        rw [hrev a (by omega), hrev (a + 1) (by omega)]
        rw [show points.length - 1 - (a + 1) = points.length - 2 - a from by omega]
        rw [show points.length - 2 - a + 1 = points.length - 1 - a from by omega]
        ring
      · have he : a = points.length - 1 := by omega
        subst he
        rw [if_pos rfl]
        rw [show points.length - 1 + 1 = points.length from by omega, Nat.mod_self]
        rw [hrev (points.length - 1) (by omega), hrev 0 (by omega)]
        rw [show points.length - 1 - (points.length - 1) = 0 from by omega]
        simp only [Nat.sub_zero]
        ring

/-- The 32-gon produced by `createCircleProfile` has signed area
`16 r² sin(π/16)`, so its winding is counter-clockwise (whatever the sign
of the radius). -/
theorem createCircleProfile_signedArea (center : Point2D) (radius : ℝ) :
    calculateSignedArea (createCircleProfile center radius).outerLoop =
      16 * (radius * radius) * Real.sin (Real.pi / 16) := by
  have h1 : (createCircleProfile center radius).outerLoop =
      (List.range 32).map (fun (i : ℕ) =>
        Point2D.mk (center.x + radius * Real.cos ((i : ℝ) / ((32 : ℕ) : ℝ) * Real.pi * 2))
          (center.y + radius * Real.sin ((i : ℝ) / ((32 : ℕ) : ℝ) * Real.pi * 2))) := rfl
  have hlen : (createCircleProfile center radius).outerLoop.length = 32 := by
    rw [h1, List.length_map, List.length_range]
  have hget : ∀ i, i < 32 → (createCircleProfile center radius).outerLoop.getD i ⟨0, 0⟩ =
      Point2D.mk (center.x + radius * Real.cos ((i : ℝ) / 32 * Real.pi * 2))
        (center.y + radius * Real.sin ((i : ℝ) / 32 * Real.pi * 2)) := by
    intro i hi
    rw [List.getD_eq_getElem _ _ (by rw [hlen]; omega)]
    simp only [h1, List.getElem_map, List.getElem_range]
    norm_cast
  unfold calculateSignedArea
  rw [hlen]
  have hstep : ∀ i ∈ Finset.range 32,
      ((createCircleProfile center radius).outerLoop.getD i ⟨0, 0⟩).x *
          ((createCircleProfile center radius).outerLoop.getD ((i + 1) % 32) ⟨0, 0⟩).y -
        ((createCircleProfile center radius).outerLoop.getD ((i + 1) % 32) ⟨0, 0⟩).x *
          ((createCircleProfile center radius).outerLoop.getD i ⟨0, 0⟩).y =
      ((center.x * (radius * Real.sin ((((i + 1) % 32 : ℕ) : ℝ) / 32 * Real.pi * 2)) -
          center.x * (radius * Real.sin ((i : ℝ) / 32 * Real.pi * 2))) -
        (center.y * (radius * Real.cos ((((i + 1) % 32 : ℕ) : ℝ) / 32 * Real.pi * 2)) -
          center.y * (radius * Real.cos ((i : ℝ) / 32 * Real.pi * 2)))) +
      radius * radius *
        Real.sin ((((i + 1) % 32 : ℕ) : ℝ) / 32 * Real.pi * 2 - (i : ℝ) / 32 * Real.pi * 2) := by
    intro i hi
    have hi' := Finset.mem_range.mp hi
    rw [hget i hi', hget ((i + 1) % 32) (Nat.mod_lt _ (by norm_num))]
    rw [Real.sin_sub]
    dsimp only
    ring
  rw [Finset.sum_congr rfl hstep]
  rw [Finset.sum_add_distrib, Finset.sum_sub_distrib, Finset.sum_sub_distrib,
    Finset.sum_sub_distrib]
  rw [sum_cyclic_shift 32 (fun k => center.x * (radius * Real.sin ((k : ℝ) / 32 * Real.pi * 2)))]
  rw [sum_cyclic_shift 32 (fun k => center.y * (radius * Real.cos ((k : ℝ) / 32 * Real.pi * 2)))]
  have hsum : ∑ i ∈ Finset.range 32, radius * radius *
      Real.sin ((((i + 1) % 32 : ℕ) : ℝ) / 32 * Real.pi * 2 - (i : ℝ) / 32 * Real.pi * 2) =
      radius * radius * (32 * Real.sin (Real.pi / 16)) := by
    rw [← Finset.mul_sum]
    have hT : ∑ i ∈ Finset.range 32,
        Real.sin ((((i + 1) % 32 : ℕ) : ℝ) / 32 * Real.pi * 2 - (i : ℝ) / 32 * Real.pi * 2) =
        32 * Real.sin (Real.pi / 16) := by
      rw [Finset.sum_range_succ]
      have h31 : ∀ i ∈ Finset.range 31,
          Real.sin ((((i + 1) % 32 : ℕ) : ℝ) / 32 * Real.pi * 2 - (i : ℝ) / 32 * Real.pi * 2) =
          Real.sin (Real.pi / 16) := by
        intro i hi
        have hi' := Finset.mem_range.mp hi
        rw [Nat.mod_eq_of_lt (by omega)]
        congr 1
        push_cast
        ring
      rw [Finset.sum_congr rfl h31, Finset.sum_const, Finset.card_range]
      have hlast : ((((31 + 1) % 32 : ℕ) : ℝ) / 32 * Real.pi * 2 -
          ((31 : ℕ) : ℝ) / 32 * Real.pi * 2) = Real.pi / 16 - 2 * Real.pi := by
        norm_num
        ring
      rw [hlast, Real.sin_sub_two_pi, nsmul_eq_mul]
      ring
    rw [hT]
  rw [hsum]
  ring

/-- The rectangle profile's corner loop has non-negative signed area
(width times height). -/
theorem createRectangleProfile_signedArea (corner1 corner2 : Point2D) :
    calculateSignedArea (createRectangleProfile corner1 corner2).outerLoop =
      (max corner1.x corner2.x - min corner1.x corner2.x) *
        (max corner1.y corner2.y - min corner1.y corner2.y) := by
  unfold createRectangleProfile calculateSignedArea
  norm_num [Finset.sum_range_succ, List.getD]
  ring

/-- `createProfileFromPoints` always yields a counter-clockwise outer loop
and no inner loops. -/
theorem createProfileFromPoints_ccw (points : List Point2D) :
    0 ≤ calculateSignedArea (createProfileFromPoints points).outerLoop ∧
    (createProfileFromPoints points).innerLoops = [] := by
  constructor
  · show 0 ≤ calculateSignedArea
      (if calculateSignedArea points < 0 then points.reverse else points)
    by_cases h : calculateSignedArea points < 0
    · rw [if_pos h, calculateSignedArea_reverse]
      linarith
    · rw [if_neg h]
      linarith [not_lt.mp h]
  · rfl

/-- Claim C5: every profile returned by `detectProfiles`, on any entity
list, has a counter-clockwise outer loop (non-negative shoelace signed
area) and an empty `innerLoops` list. -/
theorem detectProfiles_ccw_no_inner_loops (entities : List SketchEntity) (p : Profile)
    (hp : p ∈ detectProfiles entities) :
    0 ≤ calculateSignedArea p.outerLoop ∧ p.innerLoops = [] := by
  have hcircle : ∀ c : Point2D × ℝ, 0 ≤ calculateSignedArea
      (createCircleProfile c.1 c.2).outerLoop ∧ (createCircleProfile c.1 c.2).innerLoops = [] := by
    intro c
    refine ⟨?_, rfl⟩
    rw [createCircleProfile_signedArea]
    have h1 : 0 ≤ Real.sin (Real.pi / 16) :=
      Real.sin_nonneg_of_nonneg_of_le_pi (by positivity) (by linarith [Real.pi_pos])
    have h2 : 0 ≤ c.2 * c.2 := mul_self_nonneg c.2
    positivity
  have hrect : ∀ r : Point2D × Point2D, 0 ≤ calculateSignedArea
      (createRectangleProfile r.1 r.2).outerLoop ∧
      (createRectangleProfile r.1 r.2).innerLoops = [] := by
    intro r
    refine ⟨?_, rfl⟩
    rw [createRectangleProfile_signedArea]
    have hx := min_le_max (a := r.1.x) (b := r.2.x)
    have hy := min_le_max (a := r.1.y) (b := r.2.y)
    nlinarith
  unfold detectProfiles at hp
  by_cases h : (buildEdgeList (entities.filter (fun e => !e.construction))).isEmpty
  · simp only [h, if_true] at hp
    rcases List.mem_append.mp hp with h1 | h2
    · obtain ⟨c, _, rfl⟩ := List.mem_map.mp h1
      exact hcircle c
    · obtain ⟨r, _, rfl⟩ := List.mem_map.mp h2
      exact hrect r
  · simp only [h, Bool.false_eq_true, if_false] at hp
    rcases List.mem_append.mp hp with h1 | h2
    · rcases List.mem_append.mp h1 with h3 | h4
      · obtain ⟨c, _, rfl⟩ := List.mem_map.mp h3
        exact hcircle c
      · obtain ⟨r, _, rfl⟩ := List.mem_map.mp h4
        exact hrect r
    · obtain ⟨loop, _, hsome⟩ := List.mem_filterMap.mp h2
      by_cases hlen : 3 ≤ (loopToPoints loop
          (buildEdgeList (entities.filter (fun e => !e.construction)))).length
      · rw [if_pos hlen] at hsome
        obtain rfl := Option.some_injective _ hsome
        exact createProfileFromPoints_ccw _
      · rw [if_neg hlen] at hsome
        exact absurd hsome (by simp)

/-- Witness for C5 at the single-rectangle sketch. -/
theorem detectProfiles_ccw_no_inner_loops_witness :
    0 ≤ calculateSignedArea
      (Profile.mk [⟨0, 0⟩, ⟨10, 0⟩, ⟨10, 10⟩, ⟨0, 10⟩] [] 100
        { boxMin := ⟨0, 0⟩, boxMax := ⟨10, 10⟩ }).outerLoop ∧
    (Profile.mk [⟨0, 0⟩, ⟨10, 0⟩, ⟨10, 10⟩, ⟨0, 10⟩] [] 100
        { boxMin := ⟨0, 0⟩, boxMax := ⟨10, 10⟩ }).innerLoops = [] :=
  detectProfiles_ccw_no_inner_loops [rectEntity] _
    (by rw [detectProfiles_single_rect_eval]; exact List.mem_singleton_self _)

/-- A lower bound below the running best and below every scanned candidate
distance persists through the snap-point fold. -/
theorem snapFold_lb (position : Point2D) (od : ℝ) :
    ∀ (l : List SnapPointWithType) (eid : String) (acc : SnapAcc),
    od < acc.nearestDistance →
    (∀ sp ∈ l, od < distance position sp.point) →
    od < (l.foldl (snapFoldStep position eid) acc).nearestDistance := by
  intro l
  induction l with
  | nil => intro eid acc h _; exact h
  | cons sp rest ih =>
    intro eid acc h hl
    rw [List.foldl_cons]
    refine ih eid _ ?_ (fun q hq => hl q (by simp [hq]))
    unfold snapFoldStep
    by_cases hc : distance position sp.point < acc.nearestDistance
    · rw [if_pos hc]
      exact hl sp (by simp)
    · rw [if_neg hc]
      exact h

/-- A lower bound below the snap radius and below every candidate snap
point of every non-excluded entity persists through the entity scan. -/
theorem snapScan_lb (position : Point2D) (od : ℝ) (excl : Option String)
    (entities : List SketchEntity)
    (h0 : od < SNAP_DISTANCE)
    (hl : ∀ e ∈ entities, ¬(some e.id = excl) →
      ∀ sp ∈ getEntitySnapPoints e, od < distance position sp.point) :
    od < (snapScan position excl entities).nearestDistance := by
  unfold snapScan
  suffices hgen : ∀ (l : List SketchEntity) (acc : SnapAcc), od < acc.nearestDistance →
      (∀ e ∈ l, ¬(some e.id = excl) →
        ∀ sp ∈ getEntitySnapPoints e, od < distance position sp.point) →
      od < (l.foldl (fun acc entity =>
        if some entity.id = excl then acc
        else (getEntitySnapPoints entity).foldl (snapFoldStep position entity.id) acc)
        acc).nearestDistance by
    exact hgen entities ⟨none, none, .grid, SNAP_DISTANCE⟩ h0 hl
  intro l
  induction l with
  | nil => intro acc h _; exact h
  | cons e rest ih =>
    intro acc h hle
    rw [List.foldl_cons]
    refine ih _ ?_ (fun q hq hne => hle q (by simp [hq]) hne)
    by_cases he : some e.id = excl
    · rw [if_pos he]
      exact h
    · rw [if_neg he]
      exact snapFold_lb position od _ e.id acc h (hle e (by simp) he)

/-- A lower bound below the running best and below the grid candidate
persists through the grid step. -/
theorem snapGridStep_lb (sketch : SketchData) (position : Point2D) (od : ℝ) (acc : SnapAcc)
    (h : od < acc.nearestDistance)
    (hg : sketch.snapEnabled = true → od < distance position (gridSnapPoint sketch position)) :
    od < (snapGridStep sketch position acc).nearestDistance := by
  unfold snapGridStep
  by_cases hs : sketch.snapEnabled
  · rw [if_pos hs]
    by_cases hc : distance position (gridSnapPoint sketch position) < acc.nearestDistance
    · rw [if_pos hc]
      exact hg hs
    · rw [if_neg hc]
      exact h
  · rw [if_neg hs]
    exact h

/-- Claim C6 (amended): `findSnapPoint` returns the origin whenever the
origin lies strictly within the snap radius and is strictly closer to the
query than every entity snap candidate and (when grid snap is enabled) the
grid intersection; the origin does not beat a strictly closer candidate. -/
theorem findSnapPoint_origin_when_strictly_closest
    (st : EngineState) (sketch : SketchData) (position : Point2D) (excl : Option String)
    (hact : st.activeSketch = some sketch)
    (h10 : distance position ⟨0, 0⟩ < SNAP_DISTANCE)
    (hent : ∀ e ∈ sketch.entities, ¬(some e.id = excl) →
      ∀ sp ∈ getEntitySnapPoints e, distance position ⟨0, 0⟩ < distance position sp.point)
    (hgrid : sketch.snapEnabled = true →
      distance position ⟨0, 0⟩ < distance position (gridSnapPoint sketch position)) :
    findSnapPoint st position excl = some ⟨⟨0, 0⟩, some "origin", .origin⟩ := by
  unfold findSnapPoint
  rw [hact]
  have hlt : distance position ⟨0, 0⟩ <
      (snapGridStep sketch position (snapScan position excl sketch.entities)).nearestDistance :=
    snapGridStep_lb sketch position _ _ (snapScan_lb position _ excl sketch.entities h10 hent)
      hgrid
  simp only [hlt, if_true]

/-- Witness for C6 (amended): on an empty sketch with grid snap off, a
query 3 units from the origin snaps to the origin. -/
theorem findSnapPoint_origin_witness :
    findSnapPoint emptySnapState ⟨3, 0⟩ none =
      some ⟨⟨0, 0⟩, some "origin", .origin⟩ :=
  findSnapPoint_origin_when_strictly_closest emptySnapState emptySnapSketch ⟨3, 0⟩ none rfl
    (by
      unfold distance SNAP_DISTANCE
      norm_num
      rw [show (9 : ℝ) = 3 ^ 2 by norm_num, Real.sqrt_sq (by norm_num)]
      norm_num)
    (by intro e he; exact absurd he (List.not_mem_nil e))
    (by intro h; exact absurd h (by decide))

/-- Counterexample to C6 as stated: with an entity snap point right under
the query, the origin is 5 units away (well inside the 10-unit radius) yet
the entity snap point wins. -/
theorem findSnapPoint_entity_beats_origin_counterexample :
    distance ⟨5, 0⟩ ⟨0, 0⟩ < SNAP_DISTANCE ∧
    findSnapPoint snapState ⟨5, 0⟩ none =
      some ⟨⟨5, 0⟩, some "P1", .endpoint⟩ := by
  have h25 : Real.sqrt ((5 - 0) * (5 - 0) + (0 - 0) * (0 - 0)) = 5 := by
    rw [show ((5 - 0 : ℝ) * (5 - 0) + (0 - 0) * (0 - 0) : ℝ) = 5 ^ 2 by norm_num,
      Real.sqrt_sq (by norm_num)]
  constructor
  · unfold distance SNAP_DISTANCE
    rw [h25]
    norm_num
  · have h25a : Real.sqrt 25 = 5 := by
      rw [show (25 : ℝ) = 5 ^ 2 by norm_num, Real.sqrt_sq (by norm_num)]
    unfold findSnapPoint snapState
    norm_num [snapSketch, snapScan, snapGridStep, snapFoldStep, getEntitySnapPoints,
      SketchEntity.id, distance, SNAP_DISTANCE, h25]
    simp [h25a]

/-- The two concrete lines cross at parameter 1/2 of the horizontal line. -/
theorem lineLine_L1_L2 :
    lineLineIntersection ⟨0, 0⟩ ⟨20, 0⟩ ⟨10, -5⟩ ⟨10, 5⟩ =
      some ⟨⟨10, 0⟩, 1 / 2, 1 / 2⟩ := by
  unfold lineLineIntersection
  norm_num

/-- `lineL1` intersects exactly one entity, `lineL2`, at parameter 1/2. -/
theorem findLineIntersections_trim :
    findLineIntersections trimState "L1" = [⟨⟨10, 0⟩, 1 / 2, "L2"⟩] := by
  unfold findLineIntersections trimState
  norm_num [trimSketch, lineL1, lineL2, SketchEntity.id, lineLine_L1_L2]
  rw [if_neg (show ¬("L2" : String) = "L1" from by decide), List.mergeSort_singleton]

/-- The click point (5,3) projects onto `lineL1` at parameter 1/4. -/
theorem clickT_trim : (pointToLineDistance ⟨5, 3⟩ ⟨0, 0⟩ ⟨20, 0⟩).t = 1 / 4 := by
  unfold pointToLineDistance
  norm_num [min_def, max_def]

/-- Claim C7: on the line (0,0)-(20,0) crossing exactly one other entity at
parameter 1/2, a trim click projecting to parameter 1/4 deletes the
original line and adds exactly one new line, (10,0)-(20,0) (the t ∈ [1/2,1]
sub-segment); the left sub-segment spans t ∈ [0,0] and is dropped by the
0.001 epsilon guard. -/
theorem trimLineAt_bracket_concrete :
    findLineIntersections trimState "L1" = [⟨⟨10, 0⟩, 1 / 2, "L2"⟩] ∧
    (pointToLineDistance ⟨5, 3⟩ ⟨0, 0⟩ ⟨20, 0⟩).t = 1 / 4 ∧
    trimLineAt trimState "L1" ⟨5, 3⟩ =
      .ok (true,
        { activeSketch := some
            { entities := [lineL2, .line "id-2" false ⟨10, 0⟩ ⟨20, 0⟩], constraints := [],
              profiles := [], gridSize := 10, snapEnabled := true },
          plane := some "XY", nextId := 3 }) := by
  refine ⟨findLineIntersections_trim, clickT_trim, ?_⟩
  have hid : "id-" ++ toString 2 = "id-2" := rfl
  unfold trimLineAt
  rw [show trimState.activeSketch = some trimSketch from rfl]
  norm_num [trimSketch, lineL1, lineL2, SketchEntity.id, findLineIntersections_trim,
    clickT_trim, List.eraseIdx]
  norm_num [addLine, generateId, hid, trimState, Except.map, bind, Except.bind]

end DesignLab
